import Mathlib

/-!
Verification of the `ratatui-base16` crate (src/lib.rs): a Base16 color palette
record, loaders from YAML/TOML configuration documents, a color-string
normalizer used during deserialization, and a catalog of preset palettes.

Modelling conventions:
* Rust strings are modelled as `List Char`.  The crate and its claims only
  exercise ASCII data; ratatui's byte-indexed slicing (`&s[1..3]`) is modelled
  as character indexing, which coincides on ASCII input.
* Fallible Rust functions returning `Result` are modelled with `Option` /
  `Except`.
* The text-level YAML/TOML grammars are abstracted away: a configuration file
  is modelled as its parsed top-level document, a list of string key / string
  value pairs, and the file system as a list mapping paths to parsed documents.
-/

namespace RatatuiBase16

/-- Model of `ratatui::style::Color`: the sixteen ANSI named variants plus
`Reset`, 24-bit `Rgb` and 256-palette `Indexed`.  Channel values are `Nat`s
standing for `u8` (every constructor produced by the functions below keeps
them `≤ 255`). -/
inductive Color where
  | Reset
  | Black
  | Red
  | Green
  | Yellow
  | Blue
  | Magenta
  | Cyan
  | Gray
  | DarkGray
  | LightRed
  | LightGreen
  | LightYellow
  | LightBlue
  | LightMagenta
  | LightCyan
  | White
  | Rgb (r g b : Nat)
  | Indexed (i : Nat)
deriving DecidableEq

/-- `s.to_lowercase().replace([' ', '-', '_'], "")` as performed by ratatui's
`Color::from_str` before matching color names (ASCII lowercasing suffices for
every name in the match). -/
def normalizeColorName (s : List Char) : List Char :=
  (s.map Char.toLower).filter (fun c => !(c == ' ' || c == '-' || c == '_'))

/-- The numeric value of one hex digit as accepted by Rust's
`char::to_digit(16)`: `0-9`, `a-f`, `A-F`. -/
def hexCharVal (c : Char) : Option Nat :=
  if c.isDigit then some (c.toNat - 48)
  else if 'a' ≤ c ∧ c ≤ 'f' then some (c.toNat - 87)
  else if 'A' ≤ c ∧ c ≤ 'F' then some (c.toNat - 55)
  else none

/-- Digit-string part of Rust's `u8::from_str` (radix 10): at least one
decimal digit and a value that fits in `u8`.  Rust checks overflow at every
accumulation step; the accumulator is monotone, so one final `≤ 255` check is
equivalent. -/
def parseU8Digits (digits : List Char) : Option Nat :=
  if digits.isEmpty || !(digits.all Char.isDigit) then none
  else
    let v := digits.foldl (fun a c => a * 10 + (c.toNat - 48)) 0
    if v ≤ 255 then some v else none

/-- Rust `u8::from_str`: an optional leading `+` sign (a `-` sign is rejected
for unsigned types and `-` is not a digit), then decimal digits. -/
def parseU8 (s : List Char) : Option Nat :=
  if s.head? = some '+' then parseU8Digits (s.drop 1) else parseU8Digits s

/-- Digit-string part of Rust's `u8::from_str_radix(_, 16)`: at least one hex
digit and a value that fits in `u8` (same monotone-accumulator remark as for
`parseU8Digits`). -/
def parseHexDigits (digits : List Char) : Option Nat :=
  if digits.isEmpty || !(digits.all (fun c => (hexCharVal c).isSome)) then none
  else
    let v := digits.foldl (fun a c => a * 16 + (hexCharVal c).getD 0) 0
    if v ≤ 255 then some v else none

/-- Rust `u8::from_str_radix(_, 16)`: an optional leading `+` sign, then hex
digits. -/
def parseHexU8 (s : List Char) : Option Nat :=
  if s.head? = some '+' then parseHexDigits (s.drop 1) else parseHexDigits s

/-- Model of ratatui's `impl FromStr for Color` (the underlying color parser
the crate's normalizer delegates to): match the lowercased,
separator-stripped string against the color names, otherwise try a `u8`
palette index on the original string, otherwise require `#` followed by
exactly six characters and parse the three two-character slices of the
original string as hex `u8` channels. -/
def Color.fromStr (s : List Char) : Option Color :=
  let n := normalizeColorName s
  if n = "reset".data then some .Reset
  else if n = "black".data then some .Black
  else if n = "red".data then some .Red
  else if n = "green".data then some .Green
  else if n = "yellow".data then some .Yellow
  else if n = "blue".data then some .Blue
  else if n = "magenta".data then some .Magenta
  else if n = "cyan".data then some .Cyan
  else if n = "gray".data ∨ n = "grey".data then some .Gray
  else if n = "darkgray".data ∨ n = "darkgrey".data then some .DarkGray
  else if n = "lightred".data then some .LightRed
  else if n = "lightgreen".data then some .LightGreen
  else if n = "lightyellow".data then some .LightYellow
  else if n = "lightblue".data then some .LightBlue
  else if n = "lightmagenta".data then some .LightMagenta
  else if n = "lightcyan".data then some .LightCyan
  else if n = "white".data then some .White
  else
    match parseU8 s with
    | some i => some (.Indexed i)
    | none =>
      if s.head? = some '#' ∧ s.length = 7 then
        match parseHexU8 ((s.drop 1).take 2), parseHexU8 ((s.drop 3).take 2),
              parseHexU8 ((s.drop 5).take 2) with
        | some r, some g, some b => some (.Rgb r g b)
        | _, _, _ => none
      else none

/-- `Color::from_u32` from ratatui:
`Rgb((u >> 16) as u8, (u >> 8) as u8, u as u8)`. -/
def Color.from_u32 (u : Nat) : Color :=
  .Rgb (u / 65536 % 256) (u / 256 % 256) (u % 256)

/-- `deserialize_from_str` from src/lib.rs, the crate's color-string
normalizer: deserialize the raw string token, pass it to the underlying
parser as-is when it starts with `#`, otherwise prepend `#` and retry.  The
already-deserialized string is the argument; a parser failure (mapped by the
crate through `de::Error::custom`) is `none`. -/
def deserialize_from_str (s : List Char) : Option Color :=
  if s.head? = some '#' then Color.fromStr s
  else Color.fromStr ('#' :: s)

/-- `true` exactly on the named-color variants of `Color` (everything except
`Rgb` and `Indexed`). -/
def Color.isNamed : Color → Bool
  | .Rgb _ _ _ => false
  | .Indexed _ => false
  | _ => true

/-- A six-hex-digit `RRGGBB` color string (no leading `#`). -/
def isRRGGBB (s : List Char) : Bool :=
  s.length == 6 && s.all (fun c => (hexCharVal c).isSome)

/-- Model of `Base16Palette` from src/lib.rs: three `#[serde(skip)]`
metadata fields and sixteen color slots `base00`–`base0f`, each deserialized
through `deserialize_from_str`. -/
structure Base16Palette where
  name : List Char
  author : List Char
  slug : List Char
  base00 : Color
  base01 : Color
  base02 : Color
  base03 : Color
  base04 : Color
  base05 : Color
  base06 : Color
  base07 : Color
  base08 : Color
  base09 : Color
  base0a : Color
  base0b : Color
  base0c : Color
  base0d : Color
  base0e : Color
  base0f : Color
deriving DecidableEq

/-- The sixteen slots of a palette in order `base00`–`base0f`. -/
def slots (p : Base16Palette) : List Color :=
  [p.base00, p.base01, p.base02, p.base03, p.base04, p.base05, p.base06,
   p.base07, p.base08, p.base09, p.base0a, p.base0b, p.base0c, p.base0d,
   p.base0e, p.base0f]

/-- The sixteen required document keys, in field-declaration order. -/
def slotKeys : List (List Char) :=
  ["base00".data, "base01".data, "base02".data, "base03".data,
   "base04".data, "base05".data, "base06".data, "base07".data,
   "base08".data, "base09".data, "base0a".data, "base0b".data,
   "base0c".data, "base0d".data, "base0e".data, "base0f".data]

/-- A parsed configuration document: the top-level string-valued keys of the
YAML/TOML file (the slot values relevant to the palette schema are strings). -/
abbrev Document := List (List Char × List Char)

/-- The causes a `figment::Error` can carry here, reduced to the kinds this
development distinguishes: a missing required field, an invalid field value,
a file-system I/O failure, and a document syntax failure. -/
inductive FigmentErrorKind where
  | missingField (key : List Char)
  | invalidValue (key : List Char)
  | ioError (path : List Char)
  | syntaxError (path : List Char)
deriving DecidableEq

/-- `true` exactly on the I/O cause. -/
def FigmentErrorKind.isIOFailure : FigmentErrorKind → Bool
  | .ioError _ => true
  | _ => false

/-- Model of `Base16PaletteError` from src/lib.rs: the single
`ExtractionFailed` variant wrapping the underlying `figment::Error`. -/
inductive Base16PaletteError where
  | ExtractionFailed (e : FigmentErrorKind)
deriving DecidableEq

/-- Read one required slot from a document: a missing key is a missing-field
error, and a value rejected by `deserialize_from_str` is an invalid-value
error (serde's field-level custom error). -/
def getSlot (doc : Document) (key : List Char) : Except FigmentErrorKind Color :=
  match doc.lookup key with
  | none => .error (.missingField key)
  | some v =>
    match deserialize_from_str v with
    | none => .error (.invalidValue key)
    | some c => .ok c

/-- The serde-derived deserialization of `Base16Palette` from a parsed
document, as driven by figment's `extract`: the three `#[serde(skip)]` fields
take their `Default` (empty) values and are never read from the document, and
every slot field is read through `deserialize_from_str`, failing fast on the
first error (fields in declaration order). -/
def extract (doc : Document) : Except FigmentErrorKind Base16Palette := do
  let base00 ← getSlot doc ("base00".data)
  let base01 ← getSlot doc ("base01".data)
  let base02 ← getSlot doc ("base02".data)
  let base03 ← getSlot doc ("base03".data)
  let base04 ← getSlot doc ("base04".data)
  let base05 ← getSlot doc ("base05".data)
  let base06 ← getSlot doc ("base06".data)
  let base07 ← getSlot doc ("base07".data)
  let base08 ← getSlot doc ("base08".data)
  let base09 ← getSlot doc ("base09".data)
  let base0a ← getSlot doc ("base0a".data)
  let base0b ← getSlot doc ("base0b".data)
  let base0c ← getSlot doc ("base0c".data)
  let base0d ← getSlot doc ("base0d".data)
  let base0e ← getSlot doc ("base0e".data)
  let base0f ← getSlot doc ("base0f".data)
  return { name := [], author := [], slug := [],
           base00 := base00, base01 := base01, base02 := base02,
           base03 := base03, base04 := base04, base05 := base05,
           base06 := base06, base07 := base07, base08 := base08,
           base09 := base09, base0a := base0a, base0b := base0b,
           base0c := base0c, base0d := base0d, base0e := base0e,
           base0f := base0f }

/-- One file as the loader can encounter it: readable with parsed content,
or present but unreadable (e.g. permission denied), which figment reports as
an I/O failure once its search has found the file. -/
inductive FileEntry where
  | readable (doc : Document)
  | unreadable
deriving DecidableEq

/-- The file system visible to the loaders: paths mapped to the file stored
there (text-level parsing abstracted away for readable files). -/
abbrev FileSystem := List (List Char × FileEntry)

/-- figment's `Yaml::file` / `Toml::file` provider: a path with NO file
behind it yields an EMPTY provider (figment's `file`, unlike its
`file_exact`, searches for the file and silently provides no data when it is
absent), while a file that exists but cannot be read surfaces the underlying
I/O failure. -/
def providerData (fs : FileSystem) (path : List Char) :
    Except FigmentErrorKind Document :=
  match fs.lookup path with
  | none => .ok []
  | some (.readable doc) => .ok doc
  | some .unreadable => .error (.ioError path)

/-- `Base16Palette::from_yaml` from src/lib.rs:
`Figment::new().merge(Yaml::file(file)).extract().map_err(ExtractionFailed)`. -/
def Base16Palette.from_yaml (fs : FileSystem) (path : List Char) :
    Except Base16PaletteError Base16Palette :=
  (providerData fs path >>= extract).mapError Base16PaletteError.ExtractionFailed

/-- `Base16Palette::from_toml` from src/lib.rs: identical to `from_yaml` up
to the text-format parser, which the `FileSystem` abstraction has already
applied. -/
def Base16Palette.from_toml (fs : FileSystem) (path : List Char) :
    Except Base16PaletteError Base16Palette :=
  (providerData fs path >>= extract).mapError Base16PaletteError.ExtractionFailed

/-- The upper-case hex digit for `d < 16`, as produced by Rust's `{:X}`. -/
def hexDigitUpper (d : Nat) : Char :=
  if d < 10 then Char.ofNat (48 + d) else Char.ofNat (55 + d)

/-- Rust `{:02X}` formatting of a `u8` value: exactly two upper-case hex
digits for values `≤ 255`. -/
def hex2 (n : Nat) : List Char :=
  [hexDigitUpper (n / 16), hexDigitUpper (n % 16)]

/-- ratatui's `Display for Color`, which its serde `Serialize` implementation
writes out: the variant name for named colors, `#RRGGBB` (upper-case) for
`Rgb`, the decimal index for `Indexed`. -/
def Color.toDisplay : Color → List Char
  | .Reset => "Reset".data
  | .Black => "Black".data
  | .Red => "Red".data
  | .Green => "Green".data
  | .Yellow => "Yellow".data
  | .Blue => "Blue".data
  | .Magenta => "Magenta".data
  | .Cyan => "Cyan".data
  | .Gray => "Gray".data
  | .DarkGray => "DarkGray".data
  | .LightRed => "LightRed".data
  | .LightGreen => "LightGreen".data
  | .LightYellow => "LightYellow".data
  | .LightBlue => "LightBlue".data
  | .LightMagenta => "LightMagenta".data
  | .LightCyan => "LightCyan".data
  | .White => "White".data
  | .Rgb r g b => '#' :: (hex2 r ++ hex2 g ++ hex2 b)
  | .Indexed i => Nat.toDigits 10 i

/-- serde serialization of a palette to a document: the `#[serde(skip)]`
metadata fields are omitted and each slot is written through `Color`'s
`Serialize`, i.e. its `Display` string. -/
def serializePalette (p : Base16Palette) : Document :=
  [("base00".data, p.base00.toDisplay), ("base01".data, p.base01.toDisplay),
   ("base02".data, p.base02.toDisplay), ("base03".data, p.base03.toDisplay),
   ("base04".data, p.base04.toDisplay), ("base05".data, p.base05.toDisplay),
   ("base06".data, p.base06.toDisplay), ("base07".data, p.base07.toDisplay),
   ("base08".data, p.base08.toDisplay), ("base09".data, p.base09.toDisplay),
   ("base0a".data, p.base0a.toDisplay), ("base0b".data, p.base0b.toDisplay),
   ("base0c".data, p.base0c.toDisplay), ("base0d".data, p.base0d.toDisplay),
   ("base0e".data, p.base0e.toDisplay), ("base0f".data, p.base0f.toDisplay)]

/-- UTF-8 byte length of a string (Rust `str::len` counts bytes). -/
def byteLen (s : List Char) : Nat := (s.map Char.utf8Size).sum

/-- Drop exactly `n` leading BYTES: `some` suffix when byte index `n` is a
character boundary inside the string, `none` when it falls inside a
multi-byte character or past the end — the cases where Rust slicing
panics. -/
def byteDrop : List Char → Nat → Option (List Char)
  | s, 0 => some s
  | [], _ + 1 => none
  | c :: s, n + 1 =>
    if c.utf8Size ≤ n + 1 then byteDrop s (n + 1 - c.utf8Size) else none

/-- Take exactly `n` leading BYTES (same boundary conditions as
`byteDrop`). -/
def byteTake : List Char → Nat → Option (List Char)
  | _, 0 => some []
  | [], _ + 1 => none
  | c :: s, n + 1 =>
    if c.utf8Size ≤ n + 1 then (byteTake s (n + 1 - c.utf8Size)).map (c :: ·)
    else none

/-- Rust `&s[i..j]` byte slicing (for `i ≤ j`): the characters spanning
bytes `[i, j)` of the UTF-8 encoding, or `none` — a panic — when either
index is not a character boundary or the range leaves the string. -/
def byteSlice (s : List Char) (i j : Nat) : Option (List Char) :=
  (byteDrop s i).bind (fun t => byteTake t (j - i))

/-- Outcome of ratatui's `Color::from_str` at byte fidelity: a parsed
color, a clean `Err(ParseColorError)`, or a PANIC from byte-indexed slicing
hitting a non-boundary index. -/
inductive FromStrBytesResult where
  | ok (c : Color)
  | parseErr
  | panicked
deriving DecidableEq

/-- Byte-faithful model of ratatui's `impl FromStr for Color`: identical to
`Color.fromStr` except that the hex branch checks the BYTE length against 7
and slices bytes `[1..3)`, `[3..5)`, `[5..7)` exactly as `&s[1..3]` etc. do,
panicking when a slice index falls inside a multi-byte character.  On
all-ASCII input the two models coincide. -/
def Color.fromStrBytes (s : List Char) : FromStrBytesResult :=
  let n := normalizeColorName s
  if n = "reset".data then .ok .Reset
  else if n = "black".data then .ok .Black
  else if n = "red".data then .ok .Red
  else if n = "green".data then .ok .Green
  else if n = "yellow".data then .ok .Yellow
  else if n = "blue".data then .ok .Blue
  else if n = "magenta".data then .ok .Magenta
  else if n = "cyan".data then .ok .Cyan
  else if n = "gray".data ∨ n = "grey".data then .ok .Gray
  else if n = "darkgray".data ∨ n = "darkgrey".data then .ok .DarkGray
  else if n = "lightred".data then .ok .LightRed
  else if n = "lightgreen".data then .ok .LightGreen
  else if n = "lightyellow".data then .ok .LightYellow
  else if n = "lightblue".data then .ok .LightBlue
  else if n = "lightmagenta".data then .ok .LightMagenta
  else if n = "lightcyan".data then .ok .LightCyan
  else if n = "white".data then .ok .White
  else
    match parseU8 s with
    | some i => .ok (.Indexed i)
    | none =>
      if s.head? = some '#' ∧ byteLen s = 7 then
        match byteSlice s 1 3, byteSlice s 3 5, byteSlice s 5 7 with
        | some s1, some s2, some s3 =>
          match parseHexU8 s1, parseHexU8 s2, parseHexU8 s3 with
          | some r, some g, some b => .ok (.Rgb r g b)
          | _, _, _ => .parseErr
        | _, _, _ => .panicked
      else .parseErr

/-- Byte-faithful `deserialize_from_str`: the same `#` dispatch as
`deserialize_from_str`, over `Color.fromStrBytes`. -/
def deserialize_from_str_bytes (s : List Char) : FromStrBytesResult :=
  if s.head? = some '#' then Color.fromStrBytes s
  else Color.fromStrBytes ('#' :: s)

/-- Result of serde's traversal of the document's recognized slot
entries. -/
inductive VisitResult where
  | allOk
  | invalid (key : List Char)
  | panicked
deriving DecidableEq

/-- serde's map visit at byte fidelity: the entries of the (deduplicated,
key-sorted, so slot-field-ordered) document whose keys are slot fields have
their values deserialized in order; the first rejected value stops the visit
with a field error, and a slicing panic unwinds.  Keys outside the sixteen
slots (`scheme`, `author`, ...) are unknown fields, ignored without touching
the color parser, and missing fields are only reported after the
traversal. -/
def visitValues (doc : Document) : List (List Char) → VisitResult
  | [] => .allOk
  | k :: ks =>
    match doc.lookup k with
    | none => visitValues doc ks
    | some v =>
      match deserialize_from_str_bytes v with
      | .ok _ => visitValues doc ks
      | .parseErr => .invalid k
      | .panicked => .panicked

/-- Byte-fidelity slot read for the struct-construction phase.  `extractB`
only calls it after a clean `visitValues` pass, when every present slot
value deserializes to `.ok`, so the `invalidValue` fallback here is
unreachable from `extractB`. -/
def getSlotB (doc : Document) (key : List Char) : Except FigmentErrorKind Color :=
  match doc.lookup key with
  | none => .error (.missingField key)
  | some v =>
    match deserialize_from_str_bytes v with
    | .ok c => .ok c
    | _ => .error (.invalidValue key)

/-- Field-order struct construction at byte fidelity: missing required
fields are reported in declaration order (`base00` first), exactly as the
serde derive checks them after the map is exhausted. -/
def extractSlotsB (doc : Document) : Except FigmentErrorKind Base16Palette := do
  let base00 ← getSlotB doc ("base00".data)
  let base01 ← getSlotB doc ("base01".data)
  let base02 ← getSlotB doc ("base02".data)
  let base03 ← getSlotB doc ("base03".data)
  let base04 ← getSlotB doc ("base04".data)
  let base05 ← getSlotB doc ("base05".data)
  let base06 ← getSlotB doc ("base06".data)
  let base07 ← getSlotB doc ("base07".data)
  let base08 ← getSlotB doc ("base08".data)
  let base09 ← getSlotB doc ("base09".data)
  let base0a ← getSlotB doc ("base0a".data)
  let base0b ← getSlotB doc ("base0b".data)
  let base0c ← getSlotB doc ("base0c".data)
  let base0d ← getSlotB doc ("base0d".data)
  let base0e ← getSlotB doc ("base0e".data)
  let base0f ← getSlotB doc ("base0f".data)
  return { name := [], author := [], slug := [],
           base00 := base00,
           base01 := base01,
           base02 := base02,
           base03 := base03,
           base04 := base04,
           base05 := base05,
           base06 := base06,
           base07 := base07,
           base08 := base08,
           base09 := base09,
           base0a := base0a,
           base0b := base0b,
           base0c := base0c,
           base0d := base0d,
           base0e := base0e,
           base0f := base0f }

/-- A load at byte fidelity either returns the palette, returns the crate
error, or PANICS (unwinding out of the loader with no `Result` at all). -/
inductive LoadOutcome where
  | ok (p : Base16Palette)
  | error (e : Base16PaletteError)
  | panicked
deriving DecidableEq

/-- Byte-faithful extraction: serde traverses the recognized entries first
(value errors and slicing panics surface here, in key order), then the
missing required fields are reported, then the palette is built. -/
def extractB (doc : Document) : LoadOutcome :=
  match visitValues doc slotKeys with
  | .panicked => .panicked
  | .invalid k => .error (.ExtractionFailed (.invalidValue k))
  | .allOk =>
    match extractSlotsB doc with
    | .ok p => .ok p
    | .error e => .error (.ExtractionFailed e)

/-- Byte-faithful `Base16Palette::from_yaml`: unlike
`Base16Palette.from_yaml`, whose char-indexed color parser collapses
ratatui's slicing panic into a parse failure, this model keeps the panic as
a third outcome. -/
def Base16Palette.from_yaml_bytes (fs : FileSystem) (path : List Char) :
    LoadOutcome :=
  match providerData fs path with
  | .error e => .error (.ExtractionFailed e)
  | .ok doc => extractB doc

/-- Byte-faithful `Base16Palette::from_toml` (same remark as for
`Base16Palette.from_yaml_bytes`). -/
def Base16Palette.from_toml_bytes (fs : FileSystem) (path : List Char) :
    LoadOutcome :=
  match providerData fs path with
  | .error e => .error (.ExtractionFailed e)
  | .ok doc => extractB doc

/-- Preset `CUPCAKE` from src/lib.rs, built with `Color.from_u32` on its literals. -/
def CUPCAKE : Base16Palette :=
  { name := "Cupcake".data, author := "Chris Kempson (http://chriskempson.com)".data, slug := "https://github.com/chriskempson/base16-default-schemes/blob/master/cupcake.yaml".data,
    base00 := Color.from_u32 0x00fbf1f2,
    base01 := Color.from_u32 0x00f2f1f4,
    base02 := Color.from_u32 0x00d8d5dd,
    base03 := Color.from_u32 0x00bfb9c6,
    base04 := Color.from_u32 0x00a59daf,
    base05 := Color.from_u32 0x008b8198,
    base06 := Color.from_u32 0x0072677E,
    base07 := Color.from_u32 0x00585062,
    base08 := Color.from_u32 0x00D57E85,
    base09 := Color.from_u32 0x00EBB790,
    base0a := Color.from_u32 0x00DCB16C,
    base0b := Color.from_u32 0x00A3B367,
    base0c := Color.from_u32 0x0069A9A7,
    base0d := Color.from_u32 0x007297B9,
    base0e := Color.from_u32 0x00BB99B4,
    base0f := Color.from_u32 0x00BAA58C }

/-- Preset `DEFAULT_DARK` from src/lib.rs, built with `Color.from_u32` on its literals. -/
def DEFAULT_DARK : Base16Palette :=
  { name := "Default Dark".data, author := "Chris Kempson (http://chriskempson.com)".data, slug := "https://github.com/chriskempson/base16-default-schemes/blob/master/default-dark.yaml".data,
    base00 := Color.from_u32 0x00181818,
    base01 := Color.from_u32 0x00282828,
    base02 := Color.from_u32 0x00383838,
    base03 := Color.from_u32 0x00585858,
    base04 := Color.from_u32 0x00b8b8b8,
    base05 := Color.from_u32 0x00d8d8d8,
    base06 := Color.from_u32 0x00e8e8e8,
    base07 := Color.from_u32 0x00f8f8f8,
    base08 := Color.from_u32 0x00ab4642,
    base09 := Color.from_u32 0x00dc9656,
    base0a := Color.from_u32 0x00f7ca88,
    base0b := Color.from_u32 0x00a1b56c,
    base0c := Color.from_u32 0x0086c1b9,
    base0d := Color.from_u32 0x007cafc2,
    base0e := Color.from_u32 0x00ba8baf,
    base0f := Color.from_u32 0x00a16946 }

/-- Preset `DEFAULT_LIGHT` from src/lib.rs, built with `Color.from_u32` on its literals. -/
def DEFAULT_LIGHT : Base16Palette :=
  { name := "Default Light".data, author := "Chris Kempson (http://chriskempson.com)".data, slug := "https://github.com/chriskempson/base16-default-schemes/blob/master/default-light.yaml".data,
    base00 := Color.from_u32 0x00f8f8f8,
    base01 := Color.from_u32 0x00e8e8e8,
    base02 := Color.from_u32 0x00d8d8d8,
    base03 := Color.from_u32 0x00b8b8b8,
    base04 := Color.from_u32 0x00585858,
    base05 := Color.from_u32 0x00383838,
    base06 := Color.from_u32 0x00282828,
    base07 := Color.from_u32 0x00181818,
    base08 := Color.from_u32 0x00ab4642,
    base09 := Color.from_u32 0x00dc9656,
    base0a := Color.from_u32 0x00f7ca88,
    base0b := Color.from_u32 0x00a1b56c,
    base0c := Color.from_u32 0x0086c1b9,
    base0d := Color.from_u32 0x007cafc2,
    base0e := Color.from_u32 0x00ba8baf,
    base0f := Color.from_u32 0x00a16946 }

/-- Preset `EIGHTIES` from src/lib.rs, built with `Color.from_u32` on its literals. -/
def EIGHTIES : Base16Palette :=
  { name := "Eighties".data, author := "Chris Kempson (http://chriskempson.com)".data, slug := "https://github.com/chriskempson/base16-default-schemes/blob/master/eighties.yaml".data,
    base00 := Color.from_u32 0x002d2d2d,
    base01 := Color.from_u32 0x00393939,
    base02 := Color.from_u32 0x00515151,
    base03 := Color.from_u32 0x00747369,
    base04 := Color.from_u32 0x00a09f93,
    base05 := Color.from_u32 0x00d3d0c8,
    base06 := Color.from_u32 0x00e8e6df,
    base07 := Color.from_u32 0x00f2f0ec,
    base08 := Color.from_u32 0x00f2777a,
    base09 := Color.from_u32 0x00f99157,
    base0a := Color.from_u32 0x00ffcc66,
    base0b := Color.from_u32 0x0099cc99,
    base0c := Color.from_u32 0x0066cccc,
    base0d := Color.from_u32 0x006699cc,
    base0e := Color.from_u32 0x00cc99cc,
    base0f := Color.from_u32 0x00d27b53 }

/-- Preset `MOCHA` from src/lib.rs, built with `Color.from_u32` on its literals. -/
def MOCHA : Base16Palette :=
  { name := "Mocha".data, author := "Chris Kempson (http://chriskempson.com)".data, slug := "https://github.com/chriskempson/base16-default-schemes/blob/master/mocha.yaml".data,
    base00 := Color.from_u32 0x003b3228,
    base01 := Color.from_u32 0x00534636,
    base02 := Color.from_u32 0x00645240,
    base03 := Color.from_u32 0x007e705a,
    base04 := Color.from_u32 0x00b8afad,
    base05 := Color.from_u32 0x00d0c8c6,
    base06 := Color.from_u32 0x00e9e1dd,
    base07 := Color.from_u32 0x00f5eeeb,
    base08 := Color.from_u32 0x00cb6077,
    base09 := Color.from_u32 0x00d28b71,
    base0a := Color.from_u32 0x00f4bc87,
    base0b := Color.from_u32 0x00beb55b,
    base0c := Color.from_u32 0x007bbda4,
    base0d := Color.from_u32 0x008ab3b5,
    base0e := Color.from_u32 0x00a89bb9,
    base0f := Color.from_u32 0x00bb9584 }

/-- Preset `OCEAN` from src/lib.rs, built with `Color.from_u32` on its literals. -/
def OCEAN : Base16Palette :=
  { name := "Ocean".data, author := "Chris Kempson (http://chriskempson.com)".data, slug := "https://github.com/chriskempson/base16-default-schemes/blob/master/ocean.yaml".data,
    base00 := Color.from_u32 0x002b303b,
    base01 := Color.from_u32 0x00343d46,
    base02 := Color.from_u32 0x004f5b66,
    base03 := Color.from_u32 0x0065737e,
    base04 := Color.from_u32 0x00a7adba,
    base05 := Color.from_u32 0x00c0c5ce,
    base06 := Color.from_u32 0x00dfe1e8,
    base07 := Color.from_u32 0x00eff1f5,
    base08 := Color.from_u32 0x00bf616a,
    base09 := Color.from_u32 0x00d08770,
    base0a := Color.from_u32 0x00ebcb8b,
    base0b := Color.from_u32 0x00a3be8c,
    base0c := Color.from_u32 0x0096b5b4,
    base0d := Color.from_u32 0x008fa1b3,
    base0e := Color.from_u32 0x00b48ead,
    base0f := Color.from_u32 0x00ab7967 }

/-- Preset `DRACULA` from src/lib.rs, built with `Color.from_u32` on its literals. -/
def DRACULA : Base16Palette :=
  { name := "Dracula".data, author := "Mike Barkmin (http://github.com/mikebarkmin) based on Dracula Theme (http://github.com/dracula)".data, slug := "https://github.com/dracula/base16-dracula-scheme/blob/master/dracula.yaml".data,
    base00 := Color.from_u32 0x00282936,
    base01 := Color.from_u32 0x003a3c4e,
    base02 := Color.from_u32 0x004d4f68,
    base03 := Color.from_u32 0x00626483,
    base04 := Color.from_u32 0x0062d6e8,
    base05 := Color.from_u32 0x00e9e9f4,
    base06 := Color.from_u32 0x00f1f2f8,
    base07 := Color.from_u32 0x00f7f7fb,
    base08 := Color.from_u32 0x00ea51b2,
    base09 := Color.from_u32 0x00b45bcf,
    base0a := Color.from_u32 0x0000f769,
    base0b := Color.from_u32 0x00ebff87,
    base0c := Color.from_u32 0x00a1efe4,
    base0d := Color.from_u32 0x0062d6e8,
    base0e := Color.from_u32 0x00b45bcf,
    base0f := Color.from_u32 0x0000f769 }

/-- Preset `GITHUB_LIGHT` from src/lib.rs, built with `Color.from_u32` on its literals. -/
def GITHUB_LIGHT : Base16Palette :=
  { name := "Github".data, author := "Defman21".data, slug := "https://github.com/Defman21/base16-github-scheme/blob/master/github.yaml".data,
    base00 := Color.from_u32 0x00ffffff,
    base01 := Color.from_u32 0x00f5f5f5,
    base02 := Color.from_u32 0x00c8c8fa,
    base03 := Color.from_u32 0x00969896,
    base04 := Color.from_u32 0x00e8e8e8,
    base05 := Color.from_u32 0x00333333,
    base06 := Color.from_u32 0x00ffffff,
    base07 := Color.from_u32 0x00ffffff,
    base08 := Color.from_u32 0x00ed6a43,
    base09 := Color.from_u32 0x000086b3,
    base0a := Color.from_u32 0x00795da3,
    base0b := Color.from_u32 0x00183691,
    base0c := Color.from_u32 0x00183691,
    base0d := Color.from_u32 0x00795da3,
    base0e := Color.from_u32 0x00a71d5d,
    base0f := Color.from_u32 0x00333333 }

/-- Preset `ROSE_PINE_DAWN` from src/lib.rs, built with `Color.from_u32` on its literals. -/
def ROSE_PINE_DAWN : Base16Palette :=
  { name := "Rosé Pine Dawn".data, author := "Emilia Dunfelt <edun@dunfelt.se>".data, slug := "https://github.com/edunfelt/base16-rose-pine-scheme/blob/main/rose-pine-dawn.yaml".data,
    base00 := Color.from_u32 0x00faf4ed,
    base01 := Color.from_u32 0x00fffaf3,
    base02 := Color.from_u32 0x00f2e9de,
    base03 := Color.from_u32 0x009893a5,
    base04 := Color.from_u32 0x00797593,
    base05 := Color.from_u32 0x00575279,
    base06 := Color.from_u32 0x00575279,
    base07 := Color.from_u32 0x00cecacd,
    base08 := Color.from_u32 0x00b4637a,
    base09 := Color.from_u32 0x00ea9d34,
    base0a := Color.from_u32 0x00d7827e,
    base0b := Color.from_u32 0x00286983,
    base0c := Color.from_u32 0x0056949f,
    base0d := Color.from_u32 0x00907aa9,
    base0e := Color.from_u32 0x00ea9d34,
    base0f := Color.from_u32 0x00cecacd }

/-- Preset `ROSE_PINE_MOON` from src/lib.rs, built with `Color.from_u32` on its literals. -/
def ROSE_PINE_MOON : Base16Palette :=
  { name := "Rosé Pine Moon".data, author := "Emilia Dunfelt <edun@dunfelt.se>".data, slug := "https://github.com/edunfelt/base16-rose-pine-scheme/blob/main/rose-pine-moon.yaml".data,
    base00 := Color.from_u32 0x00232136,
    base01 := Color.from_u32 0x002a273f,
    base02 := Color.from_u32 0x00393552,
    base03 := Color.from_u32 0x006e6a86,
    base04 := Color.from_u32 0x00908caa,
    base05 := Color.from_u32 0x00e0def4,
    base06 := Color.from_u32 0x00e0def4,
    base07 := Color.from_u32 0x0056526e,
    base08 := Color.from_u32 0x00eb6f92,
    base09 := Color.from_u32 0x00f6c177,
    base0a := Color.from_u32 0x00ea9a97,
    base0b := Color.from_u32 0x003e8fb0,
    base0c := Color.from_u32 0x009ccfd8,
    base0d := Color.from_u32 0x00c4a7e7,
    base0e := Color.from_u32 0x00f6c177,
    base0f := Color.from_u32 0x0056526e }

/-- Preset `ROSE_PINE` from src/lib.rs, built with `Color.from_u32` on its literals. -/
def ROSE_PINE : Base16Palette :=
  { name := "Rosé Pine".data, author := "Emilia Dunfelt <edun@dunfelt.se>".data, slug := "https://github.com/edunfelt/base16-rose-pine-scheme/blob/main/rose-pine.yaml".data,
    base00 := Color.from_u32 0x00191724,
    base01 := Color.from_u32 0x001f1d2e,
    base02 := Color.from_u32 0x0026233a,
    base03 := Color.from_u32 0x006e6a86,
    base04 := Color.from_u32 0x00908caa,
    base05 := Color.from_u32 0x00e0def4,
    base06 := Color.from_u32 0x00e0def4,
    base07 := Color.from_u32 0x00524f67,
    base08 := Color.from_u32 0x00eb6f92,
    base09 := Color.from_u32 0x00f6c177,
    base0a := Color.from_u32 0x00ebbcba,
    base0b := Color.from_u32 0x0031748f,
    base0c := Color.from_u32 0x009ccfd8,
    base0d := Color.from_u32 0x00c4a7e7,
    base0e := Color.from_u32 0x00f6c177,
    base0f := Color.from_u32 0x00524f67 }

deriving instance DecidableEq for Except

/-- A demo document holding all sixteen slots with valid hex values (bare
and `#`-prefixed forms mixed). -/
def demoDoc : Document :=
  [("base00".data, "102030".data),
   ("base01".data, "#112131".data),
   ("base02".data, "122232".data),
   ("base03".data, "#132333".data),
   ("base04".data, "142434".data),
   ("base05".data, "#152535".data),
   ("base06".data, "162636".data),
   ("base07".data, "#172737".data),
   ("base08".data, "182838".data),
   ("base09".data, "#192939".data),
   ("base0a".data, "1a2a3a".data),
   ("base0b".data, "#1b2b3b".data),
   ("base0c".data, "1c2c3c".data),
   ("base0d".data, "#1d2d3d".data),
   ("base0e".data, "1e2e3e".data),
   ("base0f".data, "#1f2f3f".data)]

/-- A demo file system with the demo document behind both a `.yaml` and a
`.toml` path. -/
def demoFS : FileSystem :=
  [("theme.yaml".data, .readable demoDoc), ("theme.toml".data, .readable demoDoc)]

/-- A copy of the demo document whose `base05` value is not a color token. -/
def demoDocBad : Document :=
  demoDoc.map (fun kv => if kv.1 = "base05".data then (kv.1, "not-a-color".data) else kv)

/-- A copy of the demo document whose `base05` value makes ratatui's
byte-indexed slicing panic: `"aéxxx"` prepended with `#` is 7 BYTES long,
but byte index 3 falls inside the two-byte `é`. -/
def demoDocPanic : Document :=
  demoDoc.map (fun kv => if kv.1 = "base05".data then (kv.1, "aéxxx".data) else kv)

/-! ### Supporting lemmas -/

theorem except_bind_ok {ε α β : Type} {x : Except ε α} {f : α → Except ε β} {b : β} :
    (x >>= f) = .ok b ↔ ∃ a, x = .ok a ∧ f a = .ok b := by
  cases x <;> simp [Bind.bind, Except.bind]

theorem except_mapError_ok {ε ε' α : Type} {x : Except ε α} {f : ε → ε'} {a : α} :
    x.mapError f = .ok a ↔ x = .ok a := by
  cases x <;> simp [Except.mapError]

theorem except_mapError_error {ε ε' α : Type} {x : Except ε α} {f : ε → ε'} {e : ε}
    (h : x = .error e) : x.mapError f = .error (f e) := by
  subst h; rfl

theorem getSlot_eq_ok {doc : Document} {key : List Char} {c : Color} :
    getSlot doc key = .ok c ↔
      ∃ v, doc.lookup key = some v ∧ deserialize_from_str v = some c := by
  unfold getSlot
  cases h : doc.lookup key with
  | none => simp
  | some v =>
    cases h2 : deserialize_from_str v with
    | none => simp [h2]
    | some c' => simp [h2]

theorem extract_ok_of_slots {doc : Document}
    {c00 c01 c02 c03 c04 c05 c06 c07 c08 c09 c0a c0b c0c c0d c0e c0f : Color}
    (h00 : getSlot doc ("base00".data) = .ok c00)
    (h01 : getSlot doc ("base01".data) = .ok c01)
    (h02 : getSlot doc ("base02".data) = .ok c02)
    (h03 : getSlot doc ("base03".data) = .ok c03)
    (h04 : getSlot doc ("base04".data) = .ok c04)
    (h05 : getSlot doc ("base05".data) = .ok c05)
    (h06 : getSlot doc ("base06".data) = .ok c06)
    (h07 : getSlot doc ("base07".data) = .ok c07)
    (h08 : getSlot doc ("base08".data) = .ok c08)
    (h09 : getSlot doc ("base09".data) = .ok c09)
    (h0a : getSlot doc ("base0a".data) = .ok c0a)
    (h0b : getSlot doc ("base0b".data) = .ok c0b)
    (h0c : getSlot doc ("base0c".data) = .ok c0c)
    (h0d : getSlot doc ("base0d".data) = .ok c0d)
    (h0e : getSlot doc ("base0e".data) = .ok c0e)
    (h0f : getSlot doc ("base0f".data) = .ok c0f) :
    extract doc = .ok ⟨[], [], [], c00, c01, c02, c03, c04, c05, c06, c07,
      c08, c09, c0a, c0b, c0c, c0d, c0e, c0f⟩ := by
  simp only [extract, except_bind_ok]
  exact ⟨c00, h00, c01, h01, c02, h02, c03, h03, c04, h04, c05, h05, c06, h06,
    c07, h07, c08, h08, c09, h09, c0a, h0a, c0b, h0b, c0c, h0c, c0d, h0d,
    c0e, h0e, c0f, h0f, rfl⟩

theorem extract_ok_fields {doc : Document} {p : Base16Palette}
    (h : extract doc = .ok p) :
    p.name = [] ∧ p.author = [] ∧ p.slug = [] ∧
    getSlot doc ("base00".data) = .ok p.base00 ∧
    getSlot doc ("base01".data) = .ok p.base01 ∧
    getSlot doc ("base02".data) = .ok p.base02 ∧
    getSlot doc ("base03".data) = .ok p.base03 ∧
    getSlot doc ("base04".data) = .ok p.base04 ∧
    getSlot doc ("base05".data) = .ok p.base05 ∧
    getSlot doc ("base06".data) = .ok p.base06 ∧
    getSlot doc ("base07".data) = .ok p.base07 ∧
    getSlot doc ("base08".data) = .ok p.base08 ∧
    getSlot doc ("base09".data) = .ok p.base09 ∧
    getSlot doc ("base0a".data) = .ok p.base0a ∧
    getSlot doc ("base0b".data) = .ok p.base0b ∧
    getSlot doc ("base0c".data) = .ok p.base0c ∧
    getSlot doc ("base0d".data) = .ok p.base0d ∧
    getSlot doc ("base0e".data) = .ok p.base0e ∧
    getSlot doc ("base0f".data) = .ok p.base0f := by
  simp only [extract, except_bind_ok] at h
  obtain ⟨a00, h00, a01, h01, a02, h02, a03, h03, a04, h04, a05, h05, a06, h06,
    a07, h07, a08, h08, a09, h09, a0a, h0a, a0b, h0b, a0c, h0c, a0d, h0d,
    a0e, h0e, a0f, h0f, hp⟩ := h
  simp only [pure, Except.pure, Except.ok.injEq] at hp
  subst hp
  exact ⟨rfl, rfl, rfl, h00, h01, h02, h03, h04, h05, h06, h07, h08, h09,
    h0a, h0b, h0c, h0d, h0e, h0f⟩

theorem normalize_cons_hash (u : List Char) :
    normalizeColorName ('#' :: u) = '#' :: normalizeColorName u := rfl

theorem parseU8_cons_hash (u : List Char) : parseU8 ('#' :: u) = none := rfl

theorem cons_ne_head (c : Char) (x : List Char) (d : Char) (s : List Char)
    (h : s.head? = some d) (hne : c ≠ d) : ¬(c :: x = s) := by
  intro he
  rw [← he] at h
  simp only [List.head?_cons, Option.some.injEq] at h
  exact hne h

theorem fromStr_cons_hash (u : List Char) :
    Color.fromStr ('#' :: u) =
      if ('#' :: u).head? = some '#' ∧ ('#' :: u).length = 7 then
        match parseHexU8 ((('#' :: u).drop 1).take 2),
              parseHexU8 ((('#' :: u).drop 3).take 2),
              parseHexU8 ((('#' :: u).drop 5).take 2) with
        | some r, some g, some b => some (.Rgb r g b)
        | _, _, _ => none
      else none := by
  unfold Color.fromStr
  simp only [normalize_cons_hash]
  rw [if_neg (cons_ne_head '#' _ 'r' ("reset".data) rfl (by decide)),
      if_neg (cons_ne_head '#' _ 'b' ("black".data) rfl (by decide)),
      if_neg (cons_ne_head '#' _ 'r' ("red".data) rfl (by decide)),
      if_neg (cons_ne_head '#' _ 'g' ("green".data) rfl (by decide)),
      if_neg (cons_ne_head '#' _ 'y' ("yellow".data) rfl (by decide)),
      if_neg (cons_ne_head '#' _ 'b' ("blue".data) rfl (by decide)),
      if_neg (cons_ne_head '#' _ 'm' ("magenta".data) rfl (by decide)),
      if_neg (cons_ne_head '#' _ 'c' ("cyan".data) rfl (by decide)),
      if_neg (not_or.mpr ⟨cons_ne_head '#' _ 'g' ("gray".data) rfl (by decide),
                          cons_ne_head '#' _ 'g' ("grey".data) rfl (by decide)⟩),
      if_neg (not_or.mpr ⟨cons_ne_head '#' _ 'd' ("darkgray".data) rfl (by decide),
                          cons_ne_head '#' _ 'd' ("darkgrey".data) rfl (by decide)⟩),
      if_neg (cons_ne_head '#' _ 'l' ("lightred".data) rfl (by decide)),
      if_neg (cons_ne_head '#' _ 'l' ("lightgreen".data) rfl (by decide)),
      if_neg (cons_ne_head '#' _ 'l' ("lightyellow".data) rfl (by decide)),
      if_neg (cons_ne_head '#' _ 'l' ("lightblue".data) rfl (by decide)),
      if_neg (cons_ne_head '#' _ 'l' ("lightmagenta".data) rfl (by decide)),
      if_neg (cons_ne_head '#' _ 'l' ("lightcyan".data) rfl (by decide)),
      if_neg (cons_ne_head '#' _ 'w' ("white".data) rfl (by decide)),
      parseU8_cons_hash]

theorem parseHexDigits_le {ds : List Char} {v : Nat} (h : parseHexDigits ds = some v) :
    v ≤ 255 := by
  unfold parseHexDigits at h
  dsimp only at h
  split at h
  · simp at h
  · split at h
    · rename_i hle
      injection h with h2
      omega
    · simp at h

theorem parseHexU8_le {s : List Char} {v : Nat} (h : parseHexU8 s = some v) :
    v ≤ 255 := by
  unfold parseHexU8 at h
  split at h <;> exact parseHexDigits_le h

theorem fromStr_cons_hash_rgb {u : List Char} {c : Color}
    (h : Color.fromStr ('#' :: u) = some c) :
    ∃ r g b, c = .Rgb r g b ∧ r ≤ 255 ∧ g ≤ 255 ∧ b ≤ 255 := by
  rw [fromStr_cons_hash] at h
  split at h
  · split at h
    · rename_i r g b hr hg hb
      injection h with h2
      exact ⟨r, g, b, h2.symm, parseHexU8_le hr, parseHexU8_le hg, parseHexU8_le hb⟩
    · simp at h
  · simp at h

theorem deserialize_from_str_rgb {t : List Char} {c : Color}
    (h : deserialize_from_str t = some c) :
    ∃ r g b, c = .Rgb r g b ∧ r ≤ 255 ∧ g ≤ 255 ∧ b ≤ 255 := by
  unfold deserialize_from_str at h
  split at h
  · rename_i hh
    cases t with
    | nil => simp at hh
    | cons a u =>
      simp only [List.head?_cons, Option.some.injEq] at hh
      subst hh
      exact fromStr_cons_hash_rgb h
  · exact fromStr_cons_hash_rgb h

theorem hexCharVal_hexDigitUpper {d : Nat} (h : d < 16) :
    hexCharVal (hexDigitUpper d) = some d := by
  interval_cases d <;> rfl

theorem hexDigitUpper_ne_plus {d : Nat} (h : d < 16) : hexDigitUpper d ≠ '+' := by
  interval_cases d <;> decide

theorem parseHexU8_hex2 {n : Nat} (h : n ≤ 255) : parseHexU8 (hex2 n) = some n := by
  have h1 : n / 16 < 16 := by omega
  have h2 : n % 16 < 16 := by omega
  have e1 := hexCharVal_hexDigitUpper h1
  have e2 := hexCharVal_hexDigitUpper h2
  have hne : ¬((hex2 n).head? = some '+') := by
    simp only [hex2, List.head?_cons, Option.some.injEq]
    exact hexDigitUpper_ne_plus h1
  unfold parseHexU8
  rw [if_neg hne]
  simp only [hex2, parseHexDigits, List.isEmpty_cons, List.all_cons, List.all_nil,
    e1, e2, Option.isSome_some, Bool.and_true, Bool.and_self, Bool.not_true,
    Bool.or_false, Bool.false_or, List.foldl_cons, List.foldl_nil, Option.getD_some]
  have hv : (0 * 16 + n / 16) * 16 + n % 16 = n := by omega
  rw [hv]
  simp [h]

theorem fromStr_display_rgb {r g b : Nat} (hr : r ≤ 255) (hg : g ≤ 255) (hb : b ≤ 255) :
    Color.fromStr ('#' :: (hex2 r ++ hex2 g ++ hex2 b)) = some (.Rgb r g b) := by
  rw [fromStr_cons_hash]
  have e1 : (('#' :: (hex2 r ++ hex2 g ++ hex2 b)).drop 1).take 2 = hex2 r := by
    simp [hex2]
  have e2 : (('#' :: (hex2 r ++ hex2 g ++ hex2 b)).drop 3).take 2 = hex2 g := by
    simp [hex2]
  have e3 : (('#' :: (hex2 r ++ hex2 g ++ hex2 b)).drop 5).take 2 = hex2 b := by
    simp [hex2]
  have hlen : ('#' :: (hex2 r ++ hex2 g ++ hex2 b)).length = 7 := by simp [hex2]
  rw [if_pos ⟨rfl, hlen⟩, e1, e2, e3,
    parseHexU8_hex2 hr, parseHexU8_hex2 hg, parseHexU8_hex2 hb]

theorem deserialize_toDisplay_rgb {r g b : Nat} (hr : r ≤ 255) (hg : g ≤ 255)
    (hb : b ≤ 255) :
    deserialize_from_str ((Color.Rgb r g b).toDisplay) = some (.Rgb r g b) := by
  show deserialize_from_str ('#' :: (hex2 r ++ hex2 g ++ hex2 b)) = _
  unfold deserialize_from_str
  rw [if_pos (show ('#' :: (hex2 r ++ hex2 g ++ hex2 b)).head? = some '#' from rfl)]
  exact fromStr_display_rgb hr hg hb

/-! ### The claims -/

/-- C1: for every valid six-hex-digit `RRGGBB` string the normalizer yields
the same color with and without the leading `#`; in particular `"ffffff"` and
`"#ffffff"` both yield the RGB color with all channels at 255. -/
theorem c1_hash_is_optional (s : List Char) (h : isRRGGBB s = true) :
    deserialize_from_str s = deserialize_from_str ('#' :: s) ∧
    deserialize_from_str ("ffffff".data) = some (.Rgb 255 255 255) ∧
    deserialize_from_str ("#ffffff".data) = some (.Rgb 255 255 255) := by
  refine ⟨?_, by decide, by decide⟩
  unfold isRRGGBB at h
  cases s with
  | nil => simp at h
  | cons a u =>
    simp only [Bool.and_eq_true, beq_iff_eq, List.all_cons] at h
    obtain ⟨hlen, hhex, hrest⟩ := h
    have ha : a ≠ '#' := by
      intro he
      rw [he] at hhex
      exact absurd hhex (by decide)
    unfold deserialize_from_str
    rw [if_neg (by simp only [List.head?_cons, Option.some.injEq]; exact ha),
        if_pos (show ('#' :: a :: u).head? = some '#' from rfl)]

/-- C1 witness: the theorem applied at the concrete string `"ffffff"`. -/
theorem c1_hash_is_optional_witness :
    deserialize_from_str ("ffffff".data) = deserialize_from_str ('#' :: "ffffff".data) ∧
    deserialize_from_str ("ffffff".data) = some (.Rgb 255 255 255) ∧
    deserialize_from_str ("#ffffff".data) = some (.Rgb 255 255 255) :=
  c1_hash_is_optional ("ffffff".data) (by decide)

/-- C2: a document containing all sixteen required keys with values accepted
by the normalizer loads successfully (by `from_yaml` and `from_toml` alike),
and the sixteen slots of the resulting palette are exactly the normalizer's
colors for the document values (the skipped metadata fields default to
empty). -/
theorem c2_load_success (fs : FileSystem) (path : List Char) (doc : Document)
    (v00 v01 v02 v03 v04 v05 v06 v07 v08 v09 v0a v0b v0c v0d v0e v0f : List Char)
    (c00 c01 c02 c03 c04 c05 c06 c07 c08 c09 c0a c0b c0c c0d c0e c0f : Color)
    (hfs : fs.lookup path = some (.readable doc))
    (h00 : doc.lookup ("base00".data) = some v00) (d00 : deserialize_from_str v00 = some c00)
    (h01 : doc.lookup ("base01".data) = some v01) (d01 : deserialize_from_str v01 = some c01)
    (h02 : doc.lookup ("base02".data) = some v02) (d02 : deserialize_from_str v02 = some c02)
    (h03 : doc.lookup ("base03".data) = some v03) (d03 : deserialize_from_str v03 = some c03)
    (h04 : doc.lookup ("base04".data) = some v04) (d04 : deserialize_from_str v04 = some c04)
    (h05 : doc.lookup ("base05".data) = some v05) (d05 : deserialize_from_str v05 = some c05)
    (h06 : doc.lookup ("base06".data) = some v06) (d06 : deserialize_from_str v06 = some c06)
    (h07 : doc.lookup ("base07".data) = some v07) (d07 : deserialize_from_str v07 = some c07)
    (h08 : doc.lookup ("base08".data) = some v08) (d08 : deserialize_from_str v08 = some c08)
    (h09 : doc.lookup ("base09".data) = some v09) (d09 : deserialize_from_str v09 = some c09)
    (h0a : doc.lookup ("base0a".data) = some v0a) (d0a : deserialize_from_str v0a = some c0a)
    (h0b : doc.lookup ("base0b".data) = some v0b) (d0b : deserialize_from_str v0b = some c0b)
    (h0c : doc.lookup ("base0c".data) = some v0c) (d0c : deserialize_from_str v0c = some c0c)
    (h0d : doc.lookup ("base0d".data) = some v0d) (d0d : deserialize_from_str v0d = some c0d)
    (h0e : doc.lookup ("base0e".data) = some v0e) (d0e : deserialize_from_str v0e = some c0e)
    (h0f : doc.lookup ("base0f".data) = some v0f) (d0f : deserialize_from_str v0f = some c0f) :
    Base16Palette.from_yaml fs path = .ok ⟨[], [], [], c00, c01, c02, c03, c04, c05, c06, c07, c08, c09, c0a, c0b, c0c, c0d, c0e, c0f⟩ ∧
    Base16Palette.from_toml fs path = .ok ⟨[], [], [], c00, c01, c02, c03, c04, c05, c06, c07, c08, c09, c0a, c0b, c0c, c0d, c0e, c0f⟩ := by
  have hdoc : (providerData fs path >>= extract) = extract doc := by
    unfold providerData
    rw [hfs]
    rfl
  have hx := extract_ok_of_slots
    (getSlot_eq_ok.mpr ⟨v00, h00, d00⟩)
    (getSlot_eq_ok.mpr ⟨v01, h01, d01⟩)
    (getSlot_eq_ok.mpr ⟨v02, h02, d02⟩)
    (getSlot_eq_ok.mpr ⟨v03, h03, d03⟩)
    (getSlot_eq_ok.mpr ⟨v04, h04, d04⟩)
    (getSlot_eq_ok.mpr ⟨v05, h05, d05⟩)
    (getSlot_eq_ok.mpr ⟨v06, h06, d06⟩)
    (getSlot_eq_ok.mpr ⟨v07, h07, d07⟩)
    (getSlot_eq_ok.mpr ⟨v08, h08, d08⟩)
    (getSlot_eq_ok.mpr ⟨v09, h09, d09⟩)
    (getSlot_eq_ok.mpr ⟨v0a, h0a, d0a⟩)
    (getSlot_eq_ok.mpr ⟨v0b, h0b, d0b⟩)
    (getSlot_eq_ok.mpr ⟨v0c, h0c, d0c⟩)
    (getSlot_eq_ok.mpr ⟨v0d, h0d, d0d⟩)
    (getSlot_eq_ok.mpr ⟨v0e, h0e, d0e⟩)
    (getSlot_eq_ok.mpr ⟨v0f, h0f, d0f⟩)
  constructor
  · unfold Base16Palette.from_yaml
    rw [hdoc, hx]
    rfl
  · unfold Base16Palette.from_toml
    rw [hdoc, hx]
    rfl

/-- C2 witness: the theorem applied to the concrete demo file system. -/
theorem c2_load_success_witness :
    Base16Palette.from_yaml demoFS ("theme.yaml".data) = .ok ⟨[], [], [], Color.Rgb 16 32 48, Color.Rgb 17 33 49, Color.Rgb 18 34 50, Color.Rgb 19 35 51, Color.Rgb 20 36 52, Color.Rgb 21 37 53, Color.Rgb 22 38 54, Color.Rgb 23 39 55, Color.Rgb 24 40 56, Color.Rgb 25 41 57, Color.Rgb 26 42 58, Color.Rgb 27 43 59, Color.Rgb 28 44 60, Color.Rgb 29 45 61, Color.Rgb 30 46 62, Color.Rgb 31 47 63⟩ ∧
    Base16Palette.from_toml demoFS ("theme.yaml".data) = .ok ⟨[], [], [], Color.Rgb 16 32 48, Color.Rgb 17 33 49, Color.Rgb 18 34 50, Color.Rgb 19 35 51, Color.Rgb 20 36 52, Color.Rgb 21 37 53, Color.Rgb 22 38 54, Color.Rgb 23 39 55, Color.Rgb 24 40 56, Color.Rgb 25 41 57, Color.Rgb 26 42 58, Color.Rgb 27 43 59, Color.Rgb 28 44 60, Color.Rgb 29 45 61, Color.Rgb 30 46 62, Color.Rgb 31 47 63⟩ :=
  c2_load_success demoFS
    ("theme.yaml".data)
    demoDoc
    ("102030".data)
    ("#112131".data)
    ("122232".data)
    ("#132333".data)
    ("142434".data)
    ("#152535".data)
    ("162636".data)
    ("#172737".data)
    ("182838".data)
    ("#192939".data)
    ("1a2a3a".data)
    ("#1b2b3b".data)
    ("1c2c3c".data)
    ("#1d2d3d".data)
    ("1e2e3e".data)
    ("#1f2f3f".data)
    (Color.Rgb 16 32 48)
    (Color.Rgb 17 33 49)
    (Color.Rgb 18 34 50)
    (Color.Rgb 19 35 51)
    (Color.Rgb 20 36 52)
    (Color.Rgb 21 37 53)
    (Color.Rgb 22 38 54)
    (Color.Rgb 23 39 55)
    (Color.Rgb 24 40 56)
    (Color.Rgb 25 41 57)
    (Color.Rgb 26 42 58)
    (Color.Rgb 27 43 59)
    (Color.Rgb 28 44 60)
    (Color.Rgb 29 45 61)
    (Color.Rgb 30 46 62)
    (Color.Rgb 31 47 63)
    rfl
    rfl
    (by decide)
    rfl
    (by decide)
    rfl
    (by decide)
    rfl
    (by decide)
    rfl
    (by decide)
    rfl
    (by decide)
    rfl
    (by decide)
    rfl
    (by decide)
    rfl
    (by decide)
    rfl
    (by decide)
    rfl
    (by decide)
    rfl
    (by decide)
    rfl
    (by decide)
    rfl
    (by decide)
    rfl
    (by decide)
    rfl
    (by decide)

theorem extract_isOk_lookup {doc : Document} {p : Base16Palette}
    (h : extract doc = .ok p) (k : List Char) (hk : k ∈ slotKeys) :
    ∃ v, doc.lookup k = some v ∧ (deserialize_from_str v).isSome = true := by
  obtain ⟨-, -, -, h00, h01, h02, h03, h04, h05, h06, h07, h08, h09, h0a, h0b, h0c, h0d, h0e, h0f⟩ := extract_ok_fields h
  simp only [slotKeys, List.mem_cons, List.not_mem_nil, or_false] at hk
  rcases hk with rfl | rfl | rfl | rfl | rfl | rfl | rfl | rfl | rfl | rfl | rfl | rfl | rfl | rfl | rfl | rfl
  · obtain ⟨v, hv, hd⟩ := getSlot_eq_ok.mp h00
    exact ⟨v, hv, by rw [hd]; rfl⟩
  · obtain ⟨v, hv, hd⟩ := getSlot_eq_ok.mp h01
    exact ⟨v, hv, by rw [hd]; rfl⟩
  · obtain ⟨v, hv, hd⟩ := getSlot_eq_ok.mp h02
    exact ⟨v, hv, by rw [hd]; rfl⟩
  · obtain ⟨v, hv, hd⟩ := getSlot_eq_ok.mp h03
    exact ⟨v, hv, by rw [hd]; rfl⟩
  · obtain ⟨v, hv, hd⟩ := getSlot_eq_ok.mp h04
    exact ⟨v, hv, by rw [hd]; rfl⟩
  · obtain ⟨v, hv, hd⟩ := getSlot_eq_ok.mp h05
    exact ⟨v, hv, by rw [hd]; rfl⟩
  · obtain ⟨v, hv, hd⟩ := getSlot_eq_ok.mp h06
    exact ⟨v, hv, by rw [hd]; rfl⟩
  · obtain ⟨v, hv, hd⟩ := getSlot_eq_ok.mp h07
    exact ⟨v, hv, by rw [hd]; rfl⟩
  · obtain ⟨v, hv, hd⟩ := getSlot_eq_ok.mp h08
    exact ⟨v, hv, by rw [hd]; rfl⟩
  · obtain ⟨v, hv, hd⟩ := getSlot_eq_ok.mp h09
    exact ⟨v, hv, by rw [hd]; rfl⟩
  · obtain ⟨v, hv, hd⟩ := getSlot_eq_ok.mp h0a
    exact ⟨v, hv, by rw [hd]; rfl⟩
  · obtain ⟨v, hv, hd⟩ := getSlot_eq_ok.mp h0b
    exact ⟨v, hv, by rw [hd]; rfl⟩
  · obtain ⟨v, hv, hd⟩ := getSlot_eq_ok.mp h0c
    exact ⟨v, hv, by rw [hd]; rfl⟩
  · obtain ⟨v, hv, hd⟩ := getSlot_eq_ok.mp h0d
    exact ⟨v, hv, by rw [hd]; rfl⟩
  · obtain ⟨v, hv, hd⟩ := getSlot_eq_ok.mp h0e
    exact ⟨v, hv, by rw [hd]; rfl⟩
  · obtain ⟨v, hv, hd⟩ := getSlot_eq_ok.mp h0f
    exact ⟨v, hv, by rw [hd]; rfl⟩

theorem getSlotB_eq_ok {doc : Document} {key : List Char} {c : Color} :
    getSlotB doc key = .ok c ↔
      ∃ v, doc.lookup key = some v ∧ deserialize_from_str_bytes v = .ok c := by
  unfold getSlotB
  cases h : doc.lookup key with
  | none => simp
  | some v =>
    cases h2 : deserialize_from_str_bytes v with
    | ok c2 => simp [h2]
    | parseErr => simp [h2]
    | panicked => simp [h2]

theorem extractSlotsB_ok_fields {doc : Document} {p : Base16Palette}
    (h : extractSlotsB doc = .ok p) :
    p.name = [] ∧ p.author = [] ∧ p.slug = [] ∧
    getSlotB doc ("base00".data) = .ok p.base00 ∧
    getSlotB doc ("base01".data) = .ok p.base01 ∧
    getSlotB doc ("base02".data) = .ok p.base02 ∧
    getSlotB doc ("base03".data) = .ok p.base03 ∧
    getSlotB doc ("base04".data) = .ok p.base04 ∧
    getSlotB doc ("base05".data) = .ok p.base05 ∧
    getSlotB doc ("base06".data) = .ok p.base06 ∧
    getSlotB doc ("base07".data) = .ok p.base07 ∧
    getSlotB doc ("base08".data) = .ok p.base08 ∧
    getSlotB doc ("base09".data) = .ok p.base09 ∧
    getSlotB doc ("base0a".data) = .ok p.base0a ∧
    getSlotB doc ("base0b".data) = .ok p.base0b ∧
    getSlotB doc ("base0c".data) = .ok p.base0c ∧
    getSlotB doc ("base0d".data) = .ok p.base0d ∧
    getSlotB doc ("base0e".data) = .ok p.base0e ∧
    getSlotB doc ("base0f".data) = .ok p.base0f := by
  simp only [extractSlotsB, except_bind_ok] at h
  obtain ⟨a00, h00, a01, h01, a02, h02, a03, h03, a04, h04, a05, h05, a06, h06, a07, h07, a08, h08, a09, h09, a0a, h0a, a0b, h0b, a0c, h0c, a0d, h0d, a0e, h0e, a0f, h0f, hp⟩ := h
  simp only [pure, Except.pure, Except.ok.injEq] at hp
  subst hp
  exact ⟨rfl, rfl, rfl, h00, h01, h02, h03, h04, h05, h06, h07, h08, h09, h0a, h0b, h0c, h0d, h0e, h0f⟩

theorem extractSlotsB_isOk_lookup {doc : Document} {p : Base16Palette}
    (h : extractSlotsB doc = .ok p) (k : List Char) (hk : k ∈ slotKeys) :
    ∃ v c, doc.lookup k = some v ∧ deserialize_from_str_bytes v = .ok c := by
  obtain ⟨-, -, -, h00, h01, h02, h03, h04, h05, h06, h07, h08, h09, h0a, h0b, h0c, h0d, h0e, h0f⟩ := extractSlotsB_ok_fields h
  simp only [slotKeys, List.mem_cons, List.not_mem_nil, or_false] at hk
  rcases hk with rfl | rfl | rfl | rfl | rfl | rfl | rfl | rfl | rfl | rfl | rfl | rfl | rfl | rfl | rfl | rfl
  · obtain ⟨v, hv, hd⟩ := getSlotB_eq_ok.mp h00
    exact ⟨v, _, hv, hd⟩
  · obtain ⟨v, hv, hd⟩ := getSlotB_eq_ok.mp h01
    exact ⟨v, _, hv, hd⟩
  · obtain ⟨v, hv, hd⟩ := getSlotB_eq_ok.mp h02
    exact ⟨v, _, hv, hd⟩
  · obtain ⟨v, hv, hd⟩ := getSlotB_eq_ok.mp h03
    exact ⟨v, _, hv, hd⟩
  · obtain ⟨v, hv, hd⟩ := getSlotB_eq_ok.mp h04
    exact ⟨v, _, hv, hd⟩
  · obtain ⟨v, hv, hd⟩ := getSlotB_eq_ok.mp h05
    exact ⟨v, _, hv, hd⟩
  · obtain ⟨v, hv, hd⟩ := getSlotB_eq_ok.mp h06
    exact ⟨v, _, hv, hd⟩
  · obtain ⟨v, hv, hd⟩ := getSlotB_eq_ok.mp h07
    exact ⟨v, _, hv, hd⟩
  · obtain ⟨v, hv, hd⟩ := getSlotB_eq_ok.mp h08
    exact ⟨v, _, hv, hd⟩
  · obtain ⟨v, hv, hd⟩ := getSlotB_eq_ok.mp h09
    exact ⟨v, _, hv, hd⟩
  · obtain ⟨v, hv, hd⟩ := getSlotB_eq_ok.mp h0a
    exact ⟨v, _, hv, hd⟩
  · obtain ⟨v, hv, hd⟩ := getSlotB_eq_ok.mp h0b
    exact ⟨v, _, hv, hd⟩
  · obtain ⟨v, hv, hd⟩ := getSlotB_eq_ok.mp h0c
    exact ⟨v, _, hv, hd⟩
  · obtain ⟨v, hv, hd⟩ := getSlotB_eq_ok.mp h0d
    exact ⟨v, _, hv, hd⟩
  · obtain ⟨v, hv, hd⟩ := getSlotB_eq_ok.mp h0e
    exact ⟨v, _, hv, hd⟩
  · obtain ⟨v, hv, hd⟩ := getSlotB_eq_ok.mp h0f
    exact ⟨v, _, hv, hd⟩

theorem visitValues_cons_none {doc : Document} {a : List Char}
    (ks : List (List Char)) (ha : doc.lookup a = none) :
    visitValues doc (a :: ks) = visitValues doc ks := by
  simp only [visitValues]
  rw [ha]

theorem visitValues_cons_some {doc : Document} {a v : List Char}
    (ks : List (List Char)) (ha : doc.lookup a = some v) :
    visitValues doc (a :: ks) =
      match deserialize_from_str_bytes v with
      | .ok _ => visitValues doc ks
      | .parseErr => .invalid a
      | .panicked => .panicked := by
  simp only [visitValues]
  rw [ha]

theorem visitValues_allOk {doc : Document} {ks : List (List Char)}
    {k v : List Char}
    (h : visitValues doc ks = .allOk) (hk : k ∈ ks)
    (hv : doc.lookup k = some v) :
    ∃ c, deserialize_from_str_bytes v = .ok c := by
  induction ks with
  | nil => exact absurd hk (by simp)
  | cons a ks ih =>
    rcases List.mem_cons.mp hk with rfl | hk2
    · rw [visitValues_cons_some ks hv] at h
      cases hd : deserialize_from_str_bytes v with
      | ok c => exact ⟨c, rfl⟩
      | parseErr => rw [hd] at h; exact absurd h (by simp)
      | panicked => rw [hd] at h; exact absurd h (by simp)
    · cases ha : doc.lookup a with
      | none =>
        rw [visitValues_cons_none ks ha] at h
        exact ih h hk2
      | some w =>
        rw [visitValues_cons_some ks ha] at h
        cases hd : deserialize_from_str_bytes w with
        | ok c =>
          rw [hd] at h
          exact ih h hk2
        | parseErr => rw [hd] at h; exact absurd h (by simp)
        | panicked => rw [hd] at h; exact absurd h (by simp)


/-- C3 counterexample: a document missing `base00` (and fourteen other
required keys) whose present `base05` value `"aéxxx"` trips ratatui's
byte-indexed slicing (`"#aéxxx"` is 7 bytes but byte 3 is inside `é`): the
loader PANICS during the value traversal instead of returning
`Err(ExtractionFailed ..)`. -/
theorem c3_missing_slot_panics :
    Base16Palette.from_yaml_bytes
        [("panic.yaml".data, .readable [("base05".data, "aéxxx".data)])]
        ("panic.yaml".data) = .panicked ∧
    Base16Palette.from_toml_bytes
        [("panic.yaml".data, .readable [("base05".data, "aéxxx".data)])]
        ("panic.yaml".data) = .panicked := by decide

/-- C3 (amended): a document missing one of the sixteen required slot keys
fails to load (both loaders) with the `ExtractionFailed` error kind,
PROVIDED serde's traversal of the present slot values does not hit ratatui's
byte-slicing panic; with a panic-inducing value (see the counterexample) the
loader panics instead of returning `Err`. -/
theorem c3_missing_slot_fails (fs : FileSystem) (path : List Char)
    (doc : Document) (k : List Char)
    (hfs : fs.lookup path = some (.readable doc)) (hk : k ∈ slotKeys)
    (hmiss : doc.lookup k = none)
    (hnopanic : visitValues doc slotKeys ≠ .panicked) :
    (∃ e, Base16Palette.from_yaml_bytes fs path =
      .error (.ExtractionFailed e)) ∧
    (∃ e, Base16Palette.from_toml_bytes fs path =
      .error (.ExtractionFailed e)) := by
  have hpd : providerData fs path = .ok doc := by
    unfold providerData
    rw [hfs]
  have hx : ∃ e, extractB doc = .error (.ExtractionFailed e) := by
    cases hvv : visitValues doc slotKeys with
    | panicked => exact absurd hvv hnopanic
    | invalid k2 => exact ⟨.invalidValue k2, by unfold extractB; rw [hvv]⟩
    | allOk =>
      cases hsl : extractSlotsB doc with
      | error e => exact ⟨e, by unfold extractB; rw [hvv, hsl]⟩
      | ok p =>
        exfalso
        obtain ⟨v, c, hv2, -⟩ := extractSlotsB_isOk_lookup hsl k hk
        rw [hmiss] at hv2
        exact absurd hv2 (by simp)
  obtain ⟨e, he⟩ := hx
  constructor
  · exact ⟨e, by unfold Base16Palette.from_yaml_bytes; rw [hpd]; exact he⟩
  · exact ⟨e, by unfold Base16Palette.from_toml_bytes; rw [hpd]; exact he⟩

/-- C3 witness: the demo document with its `base0f` entry removed (and no
panicking values) fails on both loaders. -/
theorem c3_missing_slot_fails_witness :
    (∃ e, Base16Palette.from_yaml_bytes
        [("broken.yaml".data, .readable demoDoc.dropLast)]
        ("broken.yaml".data) = .error (.ExtractionFailed e)) ∧
    (∃ e, Base16Palette.from_toml_bytes
        [("broken.yaml".data, .readable demoDoc.dropLast)]
        ("broken.yaml".data) = .error (.ExtractionFailed e)) :=
  c3_missing_slot_fails [("broken.yaml".data, .readable demoDoc.dropLast)]
    ("broken.yaml".data) (demoDoc.dropLast) ("base0f".data)
    rfl (by decide) (by decide) (by decide)

/-- C4 counterexample: the demo document with all sixteen keys present but
its `base05` value replaced by `"aéxxx"` — not a valid color token — makes
the loader PANIC inside ratatui's byte-indexed slicing instead of returning
`Err(ExtractionFailed ..)`. -/
theorem c4_invalid_color_panics :
    Base16Palette.from_yaml_bytes
      [("panic2.yaml".data, .readable demoDocPanic)]
      ("panic2.yaml".data) = .panicked ∧
    Base16Palette.from_toml_bytes
      [("panic2.yaml".data, .readable demoDocPanic)]
      ("panic2.yaml".data) = .panicked := by decide

/-- C4 (amended): a document in which some slot value is rejected by the
byte-faithful normalizer as a clean parse error (for example
`"not-a-color"`, which still fails the underlying parser after `#` is
prepended) fails to load with the `ExtractionFailed` error kind, PROVIDED
serde's traversal of the slot values does not hit the byte-slicing panic
first; a panic-inducing invalid value (see the counterexample) escapes as a
panic instead of an `Err`. -/
theorem c4_invalid_color_fails (fs : FileSystem) (path : List Char)
    (doc : Document) (k v : List Char)
    (hfs : fs.lookup path = some (.readable doc)) (hk : k ∈ slotKeys)
    (hv : doc.lookup k = some v)
    (hbad : deserialize_from_str_bytes v = .parseErr)
    (hnopanic : visitValues doc slotKeys ≠ .panicked) :
    (∃ e, Base16Palette.from_yaml_bytes fs path =
      .error (.ExtractionFailed e)) ∧
    (∃ e, Base16Palette.from_toml_bytes fs path =
      .error (.ExtractionFailed e)) := by
  have hpd : providerData fs path = .ok doc := by
    unfold providerData
    rw [hfs]
  have hx : ∃ e, extractB doc = .error (.ExtractionFailed e) := by
    cases hvv : visitValues doc slotKeys with
    | panicked => exact absurd hvv hnopanic
    | invalid k2 => exact ⟨.invalidValue k2, by unfold extractB; rw [hvv]⟩
    | allOk =>
      exfalso
      obtain ⟨c, hc⟩ := visitValues_allOk hvv hk hv
      rw [hbad] at hc
      exact absurd hc (by simp)
  obtain ⟨e, he⟩ := hx
  constructor
  · exact ⟨e, by unfold Base16Palette.from_yaml_bytes; rw [hpd]; exact he⟩
  · exact ⟨e, by unfold Base16Palette.from_toml_bytes; rw [hpd]; exact he⟩

/-- C4 witness: the demo document with its `base05` value `"not-a-color"`
(a clean, non-panicking reject) fails on both loaders. -/
theorem c4_invalid_color_fails_witness :
    (∃ e, Base16Palette.from_yaml_bytes
        [("bad.yaml".data, .readable demoDocBad)]
        ("bad.yaml".data) = .error (.ExtractionFailed e)) ∧
    (∃ e, Base16Palette.from_toml_bytes
        [("bad.yaml".data, .readable demoDocBad)]
        ("bad.yaml".data) = .error (.ExtractionFailed e)) :=
  c4_invalid_color_fails [("bad.yaml".data, .readable demoDocBad)]
    ("bad.yaml".data) demoDocBad ("base05".data) ("not-a-color".data)
    rfl (by decide) (by decide) (by decide) (by decide)

/-- C5 counterexample: loading a path with no file behind it does return
`Err(ExtractionFailed ..)`, but the wrapped cause is the missing-field
validation error for `base00`, not an I/O failure: figment's `file` provider
turns an absent file into an empty document. -/
theorem c5_missing_file_counterexample :
    Base16Palette.from_yaml [] ("no-such-file.yaml".data) =
      .error (.ExtractionFailed (.missingField ("base00".data))) ∧
    (FigmentErrorKind.missingField ("base00".data)).isIOFailure = false := by
  exact ⟨rfl, rfl⟩

/-- C5 (amended): a path with NO file behind it loads as the empty document
(figment's lenient `file` provider), so both loaders fail with the
missing-field cause for `base00` — a validation failure, not an I/O one —
whereas a file that EXISTS but cannot be read does surface the I/O cause
inside `ExtractionFailed`. -/
theorem c5_missing_file_fails (fs : FileSystem) (path : List Char) :
    (fs.lookup path = none →
      Base16Palette.from_yaml fs path =
          .error (.ExtractionFailed (.missingField ("base00".data))) ∧
        Base16Palette.from_toml fs path =
          .error (.ExtractionFailed (.missingField ("base00".data))) ∧
        (FigmentErrorKind.missingField ("base00".data)).isIOFailure = false) ∧
    (fs.lookup path = some .unreadable →
      Base16Palette.from_yaml fs path =
          .error (.ExtractionFailed (.ioError path)) ∧
        Base16Palette.from_toml fs path =
          .error (.ExtractionFailed (.ioError path)) ∧
        (FigmentErrorKind.ioError path).isIOFailure = true) := by
  constructor
  · intro h
    have hdoc : (providerData fs path >>= extract) = extract ([] : Document) := by
      unfold providerData
      rw [h]
      rfl
    refine ⟨?_, ?_, rfl⟩
    · unfold Base16Palette.from_yaml
      rw [hdoc]
      rfl
    · unfold Base16Palette.from_toml
      rw [hdoc]
      rfl
  · intro h
    have hdoc : providerData fs path = .error (.ioError path) := by
      unfold providerData
      rw [h]
    refine ⟨?_, ?_, rfl⟩
    · unfold Base16Palette.from_yaml
      rw [hdoc]
      rfl
    · unfold Base16Palette.from_toml
      rw [hdoc]
      rfl

/-- C5 witness: the amended theorem applied to the empty file system
(absent file) and to a file system holding one unreadable file. -/
theorem c5_missing_file_fails_witness :
    (Base16Palette.from_yaml [] ("no-such-file.toml".data) =
        .error (.ExtractionFailed (.missingField ("base00".data))) ∧
      Base16Palette.from_toml [] ("no-such-file.toml".data) =
        .error (.ExtractionFailed (.missingField ("base00".data))) ∧
      (FigmentErrorKind.missingField ("base00".data)).isIOFailure = false) ∧
    (Base16Palette.from_yaml [("locked.yaml".data, .unreadable)]
        ("locked.yaml".data) =
        .error (.ExtractionFailed (.ioError ("locked.yaml".data))) ∧
      Base16Palette.from_toml [("locked.yaml".data, .unreadable)]
        ("locked.yaml".data) =
        .error (.ExtractionFailed (.ioError ("locked.yaml".data))) ∧
      (FigmentErrorKind.ioError ("locked.yaml".data)).isIOFailure = true) :=
  ⟨(c5_missing_file_fails [] ("no-such-file.toml".data)).1 rfl,
   (c5_missing_file_fails [("locked.yaml".data, .unreadable)]
     ("locked.yaml".data)).2 rfl⟩

/-- C6 counterexample: `"red"` is a named-color token the underlying parser
accepts, yet the normalizer rejects it (it parses `"#red"`), returning a
validation failure instead of a color value. -/
theorem c6_red_rejected :
    Color.fromStr ("red".data) = some Color.Red ∧
    deserialize_from_str ("red".data) = none := by decide

/-- C6 (amended): the normalizer does NOT accept named colors.  Because a
token without a leading `#` gets `#` prepended before parsing, every color
value the normalizer returns is an RGB value; it is never a named-color
variant. -/
theorem c6_no_named_colors (t : List Char) (c : Color)
    (h : deserialize_from_str t = some c) : c.isNamed = false := by
  obtain ⟨r, g, b, rfl, -, -, -⟩ := deserialize_from_str_rgb h
  rfl

/-- C6 witness: the amended theorem applied to the accepted token
`"ff0000"`. -/
theorem c6_no_named_colors_witness : (Color.Rgb 255 0 0).isNamed = false :=
  c6_no_named_colors ("ff0000".data) (Color.Rgb 255 0 0) (by decide)

/-- C8: every successfully loaded palette has empty `name`, `author` and
`slug` metadata: the skipped fields are never read from the document
(whatever keys it contains) and take their default empty value. -/
theorem c8_metadata_defaults_empty (fs : FileSystem) (path : List Char)
    (p : Base16Palette)
    (h : Base16Palette.from_yaml fs path = .ok p ∨
         Base16Palette.from_toml fs path = .ok p) :
    p.name = [] ∧ p.author = [] ∧ p.slug = [] := by
  have hb : (providerData fs path >>= extract) = .ok p := by
    cases h with
    | inl h => exact except_mapError_ok.mp h
    | inr h => exact except_mapError_ok.mp h
  obtain ⟨doc2, hdoc2, hx⟩ := except_bind_ok.mp hb
  obtain ⟨hn, ha, hs, -⟩ := extract_ok_fields hx
  exact ⟨hn, ha, hs⟩

/-- C8 witness: the theorem applied to the loaded demo palette. -/
theorem c8_metadata_defaults_empty_witness :
    (⟨[], [], [], Color.Rgb 16 32 48, Color.Rgb 17 33 49, Color.Rgb 18 34 50, Color.Rgb 19 35 51, Color.Rgb 20 36 52, Color.Rgb 21 37 53, Color.Rgb 22 38 54, Color.Rgb 23 39 55, Color.Rgb 24 40 56, Color.Rgb 25 41 57, Color.Rgb 26 42 58, Color.Rgb 27 43 59, Color.Rgb 28 44 60, Color.Rgb 29 45 61, Color.Rgb 30 46 62, Color.Rgb 31 47 63⟩ : Base16Palette).name = [] ∧
    (⟨[], [], [], Color.Rgb 16 32 48, Color.Rgb 17 33 49, Color.Rgb 18 34 50, Color.Rgb 19 35 51, Color.Rgb 20 36 52, Color.Rgb 21 37 53, Color.Rgb 22 38 54, Color.Rgb 23 39 55, Color.Rgb 24 40 56, Color.Rgb 25 41 57, Color.Rgb 26 42 58, Color.Rgb 27 43 59, Color.Rgb 28 44 60, Color.Rgb 29 45 61, Color.Rgb 30 46 62, Color.Rgb 31 47 63⟩ : Base16Palette).author = [] ∧
    (⟨[], [], [], Color.Rgb 16 32 48, Color.Rgb 17 33 49, Color.Rgb 18 34 50, Color.Rgb 19 35 51, Color.Rgb 20 36 52, Color.Rgb 21 37 53, Color.Rgb 22 38 54, Color.Rgb 23 39 55, Color.Rgb 24 40 56, Color.Rgb 25 41 57, Color.Rgb 26 42 58, Color.Rgb 27 43 59, Color.Rgb 28 44 60, Color.Rgb 29 45 61, Color.Rgb 30 46 62, Color.Rgb 31 47 63⟩ : Base16Palette).slug = [] :=
  c8_metadata_defaults_empty demoFS ("theme.yaml".data) ⟨[], [], [], Color.Rgb 16 32 48, Color.Rgb 17 33 49, Color.Rgb 18 34 50, Color.Rgb 19 35 51, Color.Rgb 20 36 52, Color.Rgb 21 37 53, Color.Rgb 22 38 54, Color.Rgb 23 39 55, Color.Rgb 24 40 56, Color.Rgb 25 41 57, Color.Rgb 26 42 58, Color.Rgb 27 43 59, Color.Rgb 28 44 60, Color.Rgb 29 45 61, Color.Rgb 30 46 62, Color.Rgb 31 47 63⟩
    (Or.inl (by decide))

/-- C7: serializing a successfully loaded palette and reloading the
serialized document yields the palette back: every slot of a loaded palette
is an RGB color, its serialized form is the `#RRGGBB` display string, and the
normalizer parses that string back to the same color. -/
theorem c7_serialize_reload (fs : FileSystem) (path : List Char)
    (p : Base16Palette)
    (h : Base16Palette.from_yaml fs path = .ok p ∨
         Base16Palette.from_toml fs path = .ok p) :
    extract (serializePalette p) = .ok p := by
  have hb : (providerData fs path >>= extract) = .ok p := by
    cases h with
    | inl h => exact except_mapError_ok.mp h
    | inr h => exact except_mapError_ok.mp h
  obtain ⟨doc2, hdoc2, hx⟩ := except_bind_ok.mp hb
  obtain ⟨nm, au, sl, b00, b01, b02, b03, b04, b05, b06, b07, b08, b09, b0a, b0b, b0c, b0d, b0e, b0f⟩ := p
  obtain ⟨hn, ha, hs, h00, h01, h02, h03, h04, h05, h06, h07, h08, h09, h0a, h0b, h0c, h0d, h0e, h0f⟩ := extract_ok_fields hx
  have hn2 : nm = [] := hn
  have ha2 : au = [] := ha
  have hs2 : sl = [] := hs
  subst hn2 ha2 hs2
  obtain ⟨v00, -, d00⟩ := getSlot_eq_ok.mp h00
  obtain ⟨x00, y00, z00, e00, hx00, hy00, hz00⟩ := deserialize_from_str_rgb d00
  have e00b : b00 = Color.Rgb x00 y00 z00 := e00
  subst e00b
  obtain ⟨v01, -, d01⟩ := getSlot_eq_ok.mp h01
  obtain ⟨x01, y01, z01, e01, hx01, hy01, hz01⟩ := deserialize_from_str_rgb d01
  have e01b : b01 = Color.Rgb x01 y01 z01 := e01
  subst e01b
  obtain ⟨v02, -, d02⟩ := getSlot_eq_ok.mp h02
  obtain ⟨x02, y02, z02, e02, hx02, hy02, hz02⟩ := deserialize_from_str_rgb d02
  have e02b : b02 = Color.Rgb x02 y02 z02 := e02
  subst e02b
  obtain ⟨v03, -, d03⟩ := getSlot_eq_ok.mp h03
  obtain ⟨x03, y03, z03, e03, hx03, hy03, hz03⟩ := deserialize_from_str_rgb d03
  have e03b : b03 = Color.Rgb x03 y03 z03 := e03
  subst e03b
  obtain ⟨v04, -, d04⟩ := getSlot_eq_ok.mp h04
  obtain ⟨x04, y04, z04, e04, hx04, hy04, hz04⟩ := deserialize_from_str_rgb d04
  have e04b : b04 = Color.Rgb x04 y04 z04 := e04
  subst e04b
  obtain ⟨v05, -, d05⟩ := getSlot_eq_ok.mp h05
  obtain ⟨x05, y05, z05, e05, hx05, hy05, hz05⟩ := deserialize_from_str_rgb d05
  have e05b : b05 = Color.Rgb x05 y05 z05 := e05
  subst e05b
  obtain ⟨v06, -, d06⟩ := getSlot_eq_ok.mp h06
  obtain ⟨x06, y06, z06, e06, hx06, hy06, hz06⟩ := deserialize_from_str_rgb d06
  have e06b : b06 = Color.Rgb x06 y06 z06 := e06
  subst e06b
  obtain ⟨v07, -, d07⟩ := getSlot_eq_ok.mp h07
  obtain ⟨x07, y07, z07, e07, hx07, hy07, hz07⟩ := deserialize_from_str_rgb d07
  have e07b : b07 = Color.Rgb x07 y07 z07 := e07
  subst e07b
  obtain ⟨v08, -, d08⟩ := getSlot_eq_ok.mp h08
  obtain ⟨x08, y08, z08, e08, hx08, hy08, hz08⟩ := deserialize_from_str_rgb d08
  have e08b : b08 = Color.Rgb x08 y08 z08 := e08
  subst e08b
  obtain ⟨v09, -, d09⟩ := getSlot_eq_ok.mp h09
  obtain ⟨x09, y09, z09, e09, hx09, hy09, hz09⟩ := deserialize_from_str_rgb d09
  have e09b : b09 = Color.Rgb x09 y09 z09 := e09
  subst e09b
  obtain ⟨v0a, -, d0a⟩ := getSlot_eq_ok.mp h0a
  obtain ⟨x0a, y0a, z0a, e0a, hx0a, hy0a, hz0a⟩ := deserialize_from_str_rgb d0a
  have e0ab : b0a = Color.Rgb x0a y0a z0a := e0a
  subst e0ab
  obtain ⟨v0b, -, d0b⟩ := getSlot_eq_ok.mp h0b
  obtain ⟨x0b, y0b, z0b, e0b, hx0b, hy0b, hz0b⟩ := deserialize_from_str_rgb d0b
  have e0bb : b0b = Color.Rgb x0b y0b z0b := e0b
  subst e0bb
  obtain ⟨v0c, -, d0c⟩ := getSlot_eq_ok.mp h0c
  obtain ⟨x0c, y0c, z0c, e0c, hx0c, hy0c, hz0c⟩ := deserialize_from_str_rgb d0c
  have e0cb : b0c = Color.Rgb x0c y0c z0c := e0c
  subst e0cb
  obtain ⟨v0d, -, d0d⟩ := getSlot_eq_ok.mp h0d
  obtain ⟨x0d, y0d, z0d, e0d, hx0d, hy0d, hz0d⟩ := deserialize_from_str_rgb d0d
  have e0db : b0d = Color.Rgb x0d y0d z0d := e0d
  subst e0db
  obtain ⟨v0e, -, d0e⟩ := getSlot_eq_ok.mp h0e
  obtain ⟨x0e, y0e, z0e, e0e, hx0e, hy0e, hz0e⟩ := deserialize_from_str_rgb d0e
  have e0eb : b0e = Color.Rgb x0e y0e z0e := e0e
  subst e0eb
  obtain ⟨v0f, -, d0f⟩ := getSlot_eq_ok.mp h0f
  obtain ⟨x0f, y0f, z0f, e0f, hx0f, hy0f, hz0f⟩ := deserialize_from_str_rgb d0f
  have e0fb : b0f = Color.Rgb x0f y0f z0f := e0f
  subst e0fb
  exact extract_ok_of_slots
    (getSlot_eq_ok.mpr ⟨_, rfl, deserialize_toDisplay_rgb hx00 hy00 hz00⟩)
    (getSlot_eq_ok.mpr ⟨_, rfl, deserialize_toDisplay_rgb hx01 hy01 hz01⟩)
    (getSlot_eq_ok.mpr ⟨_, rfl, deserialize_toDisplay_rgb hx02 hy02 hz02⟩)
    (getSlot_eq_ok.mpr ⟨_, rfl, deserialize_toDisplay_rgb hx03 hy03 hz03⟩)
    (getSlot_eq_ok.mpr ⟨_, rfl, deserialize_toDisplay_rgb hx04 hy04 hz04⟩)
    (getSlot_eq_ok.mpr ⟨_, rfl, deserialize_toDisplay_rgb hx05 hy05 hz05⟩)
    (getSlot_eq_ok.mpr ⟨_, rfl, deserialize_toDisplay_rgb hx06 hy06 hz06⟩)
    (getSlot_eq_ok.mpr ⟨_, rfl, deserialize_toDisplay_rgb hx07 hy07 hz07⟩)
    (getSlot_eq_ok.mpr ⟨_, rfl, deserialize_toDisplay_rgb hx08 hy08 hz08⟩)
    (getSlot_eq_ok.mpr ⟨_, rfl, deserialize_toDisplay_rgb hx09 hy09 hz09⟩)
    (getSlot_eq_ok.mpr ⟨_, rfl, deserialize_toDisplay_rgb hx0a hy0a hz0a⟩)
    (getSlot_eq_ok.mpr ⟨_, rfl, deserialize_toDisplay_rgb hx0b hy0b hz0b⟩)
    (getSlot_eq_ok.mpr ⟨_, rfl, deserialize_toDisplay_rgb hx0c hy0c hz0c⟩)
    (getSlot_eq_ok.mpr ⟨_, rfl, deserialize_toDisplay_rgb hx0d hy0d hz0d⟩)
    (getSlot_eq_ok.mpr ⟨_, rfl, deserialize_toDisplay_rgb hx0e hy0e hz0e⟩)
    (getSlot_eq_ok.mpr ⟨_, rfl, deserialize_toDisplay_rgb hx0f hy0f hz0f⟩)

/-- C7 witness: the round trip on the concrete loaded demo palette. -/
theorem c7_serialize_reload_witness :
    extract (serializePalette ⟨[], [], [], Color.Rgb 16 32 48, Color.Rgb 17 33 49, Color.Rgb 18 34 50, Color.Rgb 19 35 51, Color.Rgb 20 36 52, Color.Rgb 21 37 53, Color.Rgb 22 38 54, Color.Rgb 23 39 55, Color.Rgb 24 40 56, Color.Rgb 25 41 57, Color.Rgb 26 42 58, Color.Rgb 27 43 59, Color.Rgb 28 44 60, Color.Rgb 29 45 61, Color.Rgb 30 46 62, Color.Rgb 31 47 63⟩) = .ok ⟨[], [], [], Color.Rgb 16 32 48, Color.Rgb 17 33 49, Color.Rgb 18 34 50, Color.Rgb 19 35 51, Color.Rgb 20 36 52, Color.Rgb 21 37 53, Color.Rgb 22 38 54, Color.Rgb 23 39 55, Color.Rgb 24 40 56, Color.Rgb 25 41 57, Color.Rgb 26 42 58, Color.Rgb 27 43 59, Color.Rgb 28 44 60, Color.Rgb 29 45 61, Color.Rgb 30 46 62, Color.Rgb 31 47 63⟩ :=
  c7_serialize_reload demoFS ("theme.yaml".data) ⟨[], [], [], Color.Rgb 16 32 48, Color.Rgb 17 33 49, Color.Rgb 18 34 50, Color.Rgb 19 35 51, Color.Rgb 20 36 52, Color.Rgb 21 37 53, Color.Rgb 22 38 54, Color.Rgb 23 39 55, Color.Rgb 24 40 56, Color.Rgb 25 41 57, Color.Rgb 26 42 58, Color.Rgb 27 43 59, Color.Rgb 28 44 60, Color.Rgb 29 45 61, Color.Rgb 30 46 62, Color.Rgb 31 47 63⟩ (Or.inl (by decide))

/-- C9: each of the eleven preset constants has all sixteen slots populated
with exactly the RGB values of its documented hex literals (`from_u32`
splitting `0x00RRGGBB` into channels). -/
theorem c9_presets_literal_values :
    slots CUPCAKE = [.Rgb 0xfb 0xf1 0xf2, .Rgb 0xf2 0xf1 0xf4, .Rgb 0xd8 0xd5 0xdd, .Rgb 0xbf 0xb9 0xc6,
      .Rgb 0xa5 0x9d 0xaf, .Rgb 0x8b 0x81 0x98, .Rgb 0x72 0x67 0x7e, .Rgb 0x58 0x50 0x62,
      .Rgb 0xd5 0x7e 0x85, .Rgb 0xeb 0xb7 0x90, .Rgb 0xdc 0xb1 0x6c, .Rgb 0xa3 0xb3 0x67,
      .Rgb 0x69 0xa9 0xa7, .Rgb 0x72 0x97 0xb9, .Rgb 0xbb 0x99 0xb4, .Rgb 0xba 0xa5 0x8c] ∧
    slots DEFAULT_DARK = [.Rgb 0x18 0x18 0x18, .Rgb 0x28 0x28 0x28, .Rgb 0x38 0x38 0x38, .Rgb 0x58 0x58 0x58,
      .Rgb 0xb8 0xb8 0xb8, .Rgb 0xd8 0xd8 0xd8, .Rgb 0xe8 0xe8 0xe8, .Rgb 0xf8 0xf8 0xf8,
      .Rgb 0xab 0x46 0x42, .Rgb 0xdc 0x96 0x56, .Rgb 0xf7 0xca 0x88, .Rgb 0xa1 0xb5 0x6c,
      .Rgb 0x86 0xc1 0xb9, .Rgb 0x7c 0xaf 0xc2, .Rgb 0xba 0x8b 0xaf, .Rgb 0xa1 0x69 0x46] ∧
    slots DEFAULT_LIGHT = [.Rgb 0xf8 0xf8 0xf8, .Rgb 0xe8 0xe8 0xe8, .Rgb 0xd8 0xd8 0xd8, .Rgb 0xb8 0xb8 0xb8,
      .Rgb 0x58 0x58 0x58, .Rgb 0x38 0x38 0x38, .Rgb 0x28 0x28 0x28, .Rgb 0x18 0x18 0x18,
      .Rgb 0xab 0x46 0x42, .Rgb 0xdc 0x96 0x56, .Rgb 0xf7 0xca 0x88, .Rgb 0xa1 0xb5 0x6c,
      .Rgb 0x86 0xc1 0xb9, .Rgb 0x7c 0xaf 0xc2, .Rgb 0xba 0x8b 0xaf, .Rgb 0xa1 0x69 0x46] ∧
    slots EIGHTIES = [.Rgb 0x2d 0x2d 0x2d, .Rgb 0x39 0x39 0x39, .Rgb 0x51 0x51 0x51, .Rgb 0x74 0x73 0x69,
      .Rgb 0xa0 0x9f 0x93, .Rgb 0xd3 0xd0 0xc8, .Rgb 0xe8 0xe6 0xdf, .Rgb 0xf2 0xf0 0xec,
      .Rgb 0xf2 0x77 0x7a, .Rgb 0xf9 0x91 0x57, .Rgb 0xff 0xcc 0x66, .Rgb 0x99 0xcc 0x99,
      .Rgb 0x66 0xcc 0xcc, .Rgb 0x66 0x99 0xcc, .Rgb 0xcc 0x99 0xcc, .Rgb 0xd2 0x7b 0x53] ∧
    slots MOCHA = [.Rgb 0x3b 0x32 0x28, .Rgb 0x53 0x46 0x36, .Rgb 0x64 0x52 0x40, .Rgb 0x7e 0x70 0x5a,
      .Rgb 0xb8 0xaf 0xad, .Rgb 0xd0 0xc8 0xc6, .Rgb 0xe9 0xe1 0xdd, .Rgb 0xf5 0xee 0xeb,
      .Rgb 0xcb 0x60 0x77, .Rgb 0xd2 0x8b 0x71, .Rgb 0xf4 0xbc 0x87, .Rgb 0xbe 0xb5 0x5b,
      .Rgb 0x7b 0xbd 0xa4, .Rgb 0x8a 0xb3 0xb5, .Rgb 0xa8 0x9b 0xb9, .Rgb 0xbb 0x95 0x84] ∧
    slots OCEAN = [.Rgb 0x2b 0x30 0x3b, .Rgb 0x34 0x3d 0x46, .Rgb 0x4f 0x5b 0x66, .Rgb 0x65 0x73 0x7e,
      .Rgb 0xa7 0xad 0xba, .Rgb 0xc0 0xc5 0xce, .Rgb 0xdf 0xe1 0xe8, .Rgb 0xef 0xf1 0xf5,
      .Rgb 0xbf 0x61 0x6a, .Rgb 0xd0 0x87 0x70, .Rgb 0xeb 0xcb 0x8b, .Rgb 0xa3 0xbe 0x8c,
      .Rgb 0x96 0xb5 0xb4, .Rgb 0x8f 0xa1 0xb3, .Rgb 0xb4 0x8e 0xad, .Rgb 0xab 0x79 0x67] ∧
    slots DRACULA = [.Rgb 0x28 0x29 0x36, .Rgb 0x3a 0x3c 0x4e, .Rgb 0x4d 0x4f 0x68, .Rgb 0x62 0x64 0x83,
      .Rgb 0x62 0xd6 0xe8, .Rgb 0xe9 0xe9 0xf4, .Rgb 0xf1 0xf2 0xf8, .Rgb 0xf7 0xf7 0xfb,
      .Rgb 0xea 0x51 0xb2, .Rgb 0xb4 0x5b 0xcf, .Rgb 0x00 0xf7 0x69, .Rgb 0xeb 0xff 0x87,
      .Rgb 0xa1 0xef 0xe4, .Rgb 0x62 0xd6 0xe8, .Rgb 0xb4 0x5b 0xcf, .Rgb 0x00 0xf7 0x69] ∧
    slots GITHUB_LIGHT = [.Rgb 0xff 0xff 0xff, .Rgb 0xf5 0xf5 0xf5, .Rgb 0xc8 0xc8 0xfa, .Rgb 0x96 0x98 0x96,
      .Rgb 0xe8 0xe8 0xe8, .Rgb 0x33 0x33 0x33, .Rgb 0xff 0xff 0xff, .Rgb 0xff 0xff 0xff,
      .Rgb 0xed 0x6a 0x43, .Rgb 0x00 0x86 0xb3, .Rgb 0x79 0x5d 0xa3, .Rgb 0x18 0x36 0x91,
      .Rgb 0x18 0x36 0x91, .Rgb 0x79 0x5d 0xa3, .Rgb 0xa7 0x1d 0x5d, .Rgb 0x33 0x33 0x33] ∧
    slots ROSE_PINE_DAWN = [.Rgb 0xfa 0xf4 0xed, .Rgb 0xff 0xfa 0xf3, .Rgb 0xf2 0xe9 0xde, .Rgb 0x98 0x93 0xa5,
      .Rgb 0x79 0x75 0x93, .Rgb 0x57 0x52 0x79, .Rgb 0x57 0x52 0x79, .Rgb 0xce 0xca 0xcd,
      .Rgb 0xb4 0x63 0x7a, .Rgb 0xea 0x9d 0x34, .Rgb 0xd7 0x82 0x7e, .Rgb 0x28 0x69 0x83,
      .Rgb 0x56 0x94 0x9f, .Rgb 0x90 0x7a 0xa9, .Rgb 0xea 0x9d 0x34, .Rgb 0xce 0xca 0xcd] ∧
    slots ROSE_PINE_MOON = [.Rgb 0x23 0x21 0x36, .Rgb 0x2a 0x27 0x3f, .Rgb 0x39 0x35 0x52, .Rgb 0x6e 0x6a 0x86,
      .Rgb 0x90 0x8c 0xaa, .Rgb 0xe0 0xde 0xf4, .Rgb 0xe0 0xde 0xf4, .Rgb 0x56 0x52 0x6e,
      .Rgb 0xeb 0x6f 0x92, .Rgb 0xf6 0xc1 0x77, .Rgb 0xea 0x9a 0x97, .Rgb 0x3e 0x8f 0xb0,
      .Rgb 0x9c 0xcf 0xd8, .Rgb 0xc4 0xa7 0xe7, .Rgb 0xf6 0xc1 0x77, .Rgb 0x56 0x52 0x6e] ∧
    slots ROSE_PINE = [.Rgb 0x19 0x17 0x24, .Rgb 0x1f 0x1d 0x2e, .Rgb 0x26 0x23 0x3a, .Rgb 0x6e 0x6a 0x86,
      .Rgb 0x90 0x8c 0xaa, .Rgb 0xe0 0xde 0xf4, .Rgb 0xe0 0xde 0xf4, .Rgb 0x52 0x4f 0x67,
      .Rgb 0xeb 0x6f 0x92, .Rgb 0xf6 0xc1 0x77, .Rgb 0xeb 0xbc 0xba, .Rgb 0x31 0x74 0x8f,
      .Rgb 0x9c 0xcf 0xd8, .Rgb 0xc4 0xa7 0xe7, .Rgb 0xf6 0xc1 0x77, .Rgb 0x52 0x4f 0x67] := by decide

/-- C10: `DEFAULT_LIGHT` is the shade reversal of `DEFAULT_DARK`: slots
`base00`-`base07` appear in reverse order and slots `base08`-`base0f`
coincide. -/
theorem c10_default_light_reverses_dark :
    DEFAULT_LIGHT.base00 = DEFAULT_DARK.base07 ∧
    DEFAULT_LIGHT.base01 = DEFAULT_DARK.base06 ∧
    DEFAULT_LIGHT.base02 = DEFAULT_DARK.base05 ∧
    DEFAULT_LIGHT.base03 = DEFAULT_DARK.base04 ∧
    DEFAULT_LIGHT.base04 = DEFAULT_DARK.base03 ∧
    DEFAULT_LIGHT.base05 = DEFAULT_DARK.base02 ∧
    DEFAULT_LIGHT.base06 = DEFAULT_DARK.base01 ∧
    DEFAULT_LIGHT.base07 = DEFAULT_DARK.base00 ∧
    DEFAULT_LIGHT.base08 = DEFAULT_DARK.base08 ∧
    DEFAULT_LIGHT.base09 = DEFAULT_DARK.base09 ∧
    DEFAULT_LIGHT.base0a = DEFAULT_DARK.base0a ∧
    DEFAULT_LIGHT.base0b = DEFAULT_DARK.base0b ∧
    DEFAULT_LIGHT.base0c = DEFAULT_DARK.base0c ∧
    DEFAULT_LIGHT.base0d = DEFAULT_DARK.base0d ∧
    DEFAULT_LIGHT.base0e = DEFAULT_DARK.base0e ∧
    DEFAULT_LIGHT.base0f = DEFAULT_DARK.base0f := by decide

end RatatuiBase16
